import Mathlib

/-!
# The shell32 file stream (`reactos/lib/shell32/memorystream.c`)

A shallow embedding of the `ISHFileStream` object: an `IStream` whose methods forward to the
file primitives of the operating system.

* Pointers are addresses (`Nat`, `0` is `NULL`); the stream objects live in a process memory
  `Proc.mem`, and a method called through a pointer that designates no live object has no
  defined result (`none`).
* The operating system is a record of primitives (`Kernel`) over an arbitrary state; every
  primitive the code invokes is appended to the log `Proc.calls`.
* `Win32` is one concrete kernel: named files that are byte sequences, and a handle table in
  which every open handle has a current position.
* Output parameters are returned: `none` when the code stores nothing through the pointer.
* The `TRACE` debug output of the source is not modelled.
-/

namespace SHFileStream

/-! ## Constants of the platform headers -/

/-- Modelled from the spec: the success status, `S_OK` of winerror.h (a header that is not part
of the source tree). -/
def S_OK : Int := 0

/-- Modelled from the spec: the soft "false/incomplete" status, `S_FALSE` of winerror.h. -/
def S_FALSE : Int := 1

/-- Modelled from the spec: the "not implemented" status, `E_NOTIMPL` of winerror.h
(0x80004001 as a signed 32-bit value). -/
def E_NOTIMPL : Int := -2147467263

/-- Modelled from the spec: the "no matching capability" status, `E_NOINTERFACE` of winerror.h
(0x80004002). -/
def E_NOINTERFACE : Int := -2147467262

/-- Modelled from the spec: the generic failure, `E_FAIL` of winerror.h (0x80004005). -/
def E_FAIL : Int := -2147467259

/-- Modelled from the spec: the out-of-memory error, `E_OUTOFMEMORY` of winerror.h
(0x8007000E). -/
def E_OUTOFMEMORY : Int := -2147024882

/-- Modelled from the spec: the argument-error code, `E_INVALIDARG` of winerror.h
(0x80070057). -/
def E_INVALIDARG : Int := -2147024809

/-- Modelled from the spec: the invalid-pointer condition, `STG_E_INVALIDPOINTER` of winerror.h
(0x80030009). -/
def STG_E_INVALIDPOINTER : Int := -2147287031

/-- Modelled from the spec: the "invalid flag" error, `STG_E_INVALIDFLAG` of winerror.h
(0x800300FF). -/
def STG_E_INVALIDFLAG : Int := -2147286785

/-- Modelled from the spec: access sub-field value "read", `STGM_READ` of objbase.h. -/
def STGM_READ : Nat := 0x0
/-- Modelled from the spec: access sub-field value "write", `STGM_WRITE` of objbase.h. -/
def STGM_WRITE : Nat := 0x1
/-- Modelled from the spec: access sub-field value "read-write", `STGM_READWRITE` of objbase.h. -/
def STGM_READWRITE : Nat := 0x2
/-- Modelled from the spec: creation sub-field value "create", `STGM_CREATE` of objbase.h. -/
def STGM_CREATE : Nat := 0x1000
/-- Modelled from the spec: creation sub-field value "fail if there", `STGM_FAILIFTHERE` of
objbase.h. -/
def STGM_FAILIFTHERE : Nat := 0x0
/-- Modelled from the spec: the transacted-mode flag, `STGM_TRANSACTED` of objbase.h. -/
def STGM_TRANSACTED : Nat := 0x10000

/-- Modelled from the spec: read access of the OS open, `GENERIC_READ` of winnt.h. -/
def GENERIC_READ : Nat := 0x80000000
/-- Modelled from the spec: write access of the OS open, `GENERIC_WRITE` of winnt.h. -/
def GENERIC_WRITE : Nat := 0x40000000
/-- Modelled from the spec: share mode "other readers may share", `FILE_SHARE_READ` of winnt.h. -/
def FILE_SHARE_READ : Nat := 0x1
/-- Modelled from the spec: share mode bit `FILE_SHARE_WRITE` of winnt.h. -/
def FILE_SHARE_WRITE : Nat := 0x2
/-- Modelled from the spec: disposition `CREATE_NEW` of winbase.h. -/
def CREATE_NEW : Nat := 1
/-- Modelled from the spec: disposition "always create", `CREATE_ALWAYS` of winbase.h. -/
def CREATE_ALWAYS : Nat := 2
/-- Modelled from the spec: disposition "open only if the file exists", `OPEN_EXISTING` of
winbase.h. -/
def OPEN_EXISTING : Nat := 3
/-- Modelled from the spec: disposition `OPEN_ALWAYS` of winbase.h. -/
def OPEN_ALWAYS : Nat := 4
/-- Modelled from the spec: disposition `TRUNCATE_EXISTING` of winbase.h. -/
def TRUNCATE_EXISTING : Nat := 5
/-- Modelled from the spec: the failed-open result, `INVALID_HANDLE_VALUE` of winbase.h
(the all-ones 32-bit pointer). -/
def INVALID_HANDLE_VALUE : Nat := 0xFFFFFFFF
/-- Modelled from the spec: the invalid-position sentinel, `INVALID_SET_FILE_POINTER` of
winbase.h. -/
def INVALID_SET_FILE_POINTER : Nat := 0xFFFFFFFF
/-- Modelled from the spec: seek origin "begin", `FILE_BEGIN` of winbase.h (the value of
`STREAM_SEEK_SET`). -/
def FILE_BEGIN : Nat := 0
/-- Modelled from the spec: seek origin "current", `FILE_CURRENT` of winbase.h (the value of
`STREAM_SEEK_CUR`). -/
def FILE_CURRENT : Nat := 1
/-- Modelled from the spec: seek origin "end", `FILE_END` of winbase.h (the value of
`STREAM_SEEK_END`). -/
def FILE_END : Nat := 2

/-- Modelled from the spec: OS error code `ERROR_FILE_NOT_FOUND` of winerror.h. -/
def ERROR_FILE_NOT_FOUND : Nat := 2
/-- Modelled from the spec: `ERROR_TOO_MANY_OPEN_FILES` of winerror.h. -/
def ERROR_TOO_MANY_OPEN_FILES : Nat := 4
/-- Modelled from the spec: `ERROR_ACCESS_DENIED` of winerror.h. -/
def ERROR_ACCESS_DENIED : Nat := 5
/-- Modelled from the spec: `ERROR_INVALID_HANDLE` of winerror.h. -/
def ERROR_INVALID_HANDLE : Nat := 6
/-- Modelled from the spec: `ERROR_SHARING_VIOLATION` of winerror.h. -/
def ERROR_SHARING_VIOLATION : Nat := 32
/-- Modelled from the spec: `ERROR_FILE_EXISTS` of winerror.h. -/
def ERROR_FILE_EXISTS : Nat := 80
/-- Modelled from the spec: `ERROR_INVALID_PARAMETER` of winerror.h. -/
def ERROR_INVALID_PARAMETER : Nat := 87
/-- Modelled from the spec: `ERROR_NEGATIVE_SEEK` of winerror.h. -/
def ERROR_NEGATIVE_SEEK : Nat := 131

/-- Modelled from the spec: the translation of an OS error code into the returned error, the
macro `HRESULT_FROM_WIN32` of winerror.h: zero stays zero, any other code keeps its low 16 bits
under facility 7 with the severity bit set. -/
def HRESULT_FROM_WIN32 (x : Nat) : Int :=
  if x = 0 then 0 else ((((x &&& 0xFFFF) ||| (7 <<< 16) ||| 0x80000000 : Nat) : Int) - 4294967296)

/-- The macro `STGM_ACCESS_MODE`. -/
def STGM_ACCESS_MODE (stgm : Nat) : Nat := stgm &&& 0x0000f
/-- The macro `STGM_SHARE_MODE`. -/
def STGM_SHARE_MODE (stgm : Nat) : Nat := stgm &&& 0x000f0
/-- The macro `STGM_CREATE_MODE`. -/
def STGM_CREATE_MODE (stgm : Nat) : Nat := stgm &&& 0x0f000

/-! ## Data model -/

/-- An interface identifier: the four fields of a `GUID`. -/
structure GUID where
  Data1 : Nat
  Data2 : Nat
  Data3 : Nat
  Data4 : List Nat
deriving DecidableEq, Repr

/-- Modelled from the spec: the base capability identifier, `IID_IUnknown`
(00000000-0000-0000-C000-000000000046), declared outside the source tree. -/
def IID_IUnknown : GUID := ⟨0x0, 0, 0, [0xC0, 0, 0, 0, 0, 0, 0, 0x46]⟩

/-- Modelled from the spec: the stream capability identifier, `IID_IStream`
(0000000C-0000-0000-C000-000000000046), declared outside the source tree. -/
def IID_IStream : GUID := ⟨0xC, 0, 0, [0xC0, 0, 0, 0, 0, 0, 0, 0x46]⟩

/-- Modelled from the spec: `IsEqualIID`, the field-wise comparison of two identifiers. -/
def IsEqualIID (a b : GUID) : Bool := decide (a = b)

/-- The object `ISHFileStream`. Its first member `lpvtst` always designates the method table
`stvt` and is left out: a call through the table is a call of the `IStream_fn*` function. -/
structure ISHFileStream where
  ref : Nat
  handle : Nat
deriving DecidableEq, Repr

/-- One invocation of an operating-system primitive, with the arguments the code passes.
`GetProcessHeap` is part of the `HeapAlloc` and `HeapFree` entries. -/
inductive OsCall where
  | CreateFileW (lpFileName : List Nat) (dwDesiredAccess dwShareMode dwCreationDisposition : Nat)
  | GetLastError
  | HeapAlloc
  | HeapFree (lpMem : Nat)
  | ReadFile (hFile nNumberOfBytesToRead : Nat)
  | WriteFile (hFile : Nat) (lpBuffer : List Nat) (nNumberOfBytesToWrite : Nat)
  | SetFilePointer (hFile lDistanceToMove : Nat) (lpDistanceToMoveHigh : Option Nat)
      (dwMoveMethod : Nat)
  | SetEndOfFile (hFile : Nat)
  | CloseHandle (hObject : Nat)
deriving DecidableEq, Repr

/-- The operating system as the code sees it. The primitives are not part of the source tree
and are parameters of the embedding: each maps its arguments and the state of the system to
its result and the next state.

* `CreateFileW name access share disposition` returns the handle (`INVALID_HANDLE_VALUE` on
  failure);
* `HeapAlloc` returns the address of a fresh zeroed block for one `ISHFileStream` (`0` on
  failure), `HeapFree` releases one;
* `ReadFile h n` returns the success flag and the bytes stored in the buffer;
* `WriteFile h buffer n` returns the success flag and the count of bytes written;
* `SetFilePointer h lo hi method` takes the low 32 bits of the distance and the content of the
  optional high part, and returns the low part of the result and the content of the high part
  after the call;
* `SetEndOfFile` and `CloseHandle` return their success flag. -/
structure Kernel (σ : Type) where
  CreateFileW : List Nat → Nat → Nat → Nat → σ → Nat × σ
  GetLastError : σ → Nat
  HeapAlloc : σ → Nat × σ
  HeapFree : Nat → σ → σ
  ReadFile : Nat → Nat → σ → (Bool × List Nat) × σ
  WriteFile : Nat → List Nat → Nat → σ → (Bool × Nat) × σ
  SetFilePointer : Nat → Nat → Option Nat → Nat → σ → (Nat × Nat) × σ
  SetEndOfFile : Nat → σ → Bool × σ
  CloseHandle : Nat → σ → Bool × σ

/-- The process: the state of the operating system, the stream objects in memory by address,
and the log of the primitives invoked so far. -/
structure Proc (σ : Type) where
  os : σ
  mem : Nat → Option ISHFileStream
  calls : List OsCall

/-- The process after one primitive: the call is logged and the system state replaced. -/
def Proc.sys {σ : Type} (p : Proc σ) (c : OsCall) (s : σ) : Proc σ :=
  { p with os := s, calls := p.calls ++ [c] }

/-- The process after a store to the object at `a` (`none` once the block is freed). -/
def Proc.store {σ : Type} (p : Proc σ) (a : Nat) (v : Option ISHFileStream) : Proc σ :=
  { p with mem := fun x => if x = a then v else p.mem x }

/-- The 32-bit `InterlockedIncrement`: the new value of the counter. -/
def InterlockedIncrement (x : Nat) : Nat := (x + 1) % 4294967296

/-- The 32-bit `InterlockedDecrement`: the new value of the counter. -/
def InterlockedDecrement (x : Nat) : Nat := (x + 4294967295) % 4294967296

/-! ## The methods -/

/-- The function `IStream_fnAddRef`: the count is incremented in place and returned. -/
def IStream_fnAddRef {σ : Type} (iface : Nat) (p : Proc σ) : Option (Nat × Proc σ) :=
  match p.mem iface with
  | none => none
  | some This =>
    let refCount := InterlockedIncrement This.ref
    some (refCount, p.store iface (some { This with ref := refCount }))

/-- The function `IStream_fnQueryInterface`: result and the value left in `*ppvObj`. -/
def IStream_fnQueryInterface {σ : Type} (iface : Nat) (riid : GUID) (p : Proc σ) :
    Option ((Int × Nat) × Proc σ) :=
  let ppvObj : Nat :=
    if IsEqualIID riid IID_IUnknown || IsEqualIID riid IID_IStream then iface else 0
  if ppvObj ≠ 0 then
    match IStream_fnAddRef ppvObj p with
    | none => none
    | some r => some ((S_OK, ppvObj), r.2)
  else some ((E_NOINTERFACE, ppvObj), p)

/-- The function `IStream_fnRelease`: the count is decremented in place; at zero the handle is
closed and the object freed. The new count is returned. -/
def IStream_fnRelease {σ : Type} (K : Kernel σ) (iface : Nat) (p : Proc σ) :
    Option (Nat × Proc σ) :=
  match p.mem iface with
  | none => none
  | some This =>
    let refCount := InterlockedDecrement This.ref
    let p1 := p.store iface (some { This with ref := refCount })
    if refCount = 0 then
      let p2 := p1.sys (OsCall.CloseHandle This.handle) (K.CloseHandle This.handle p1.os).2
      let p3 := p2.sys (OsCall.HeapFree iface) (K.HeapFree iface p2.os)
      some (refCount, p3.store iface none)
    else some (refCount, p1)

/-- The function `IStream_fnRead`. `pv` tells whether the destination buffer is present and
`pcbRead` whether the count is wanted; the result is the status, the bytes stored in the
buffer and the count stored through `pcbRead`. -/
def IStream_fnRead {σ : Type} (K : Kernel σ) (iface : Nat) (pv : Bool) (cb : Nat)
    (pcbRead : Bool) (p : Proc σ) : Option ((Int × List Nat × Option Nat) × Proc σ) :=
  if !pv then some ((STG_E_INVALIDPOINTER, [], none), p)
  else
    match p.mem iface with
    | none => none
    | some This =>
      let r := K.ReadFile This.handle cb p.os
      let p1 := p.sys (OsCall.ReadFile This.handle cb) r.2
      let out := (r.1.2, if pcbRead then some r.1.2.length else none)
      if !r.1.1 then some ((S_FALSE, out), p1)
      else some ((S_OK, out), p1)

/-- The function `IStream_fnWrite`. `pv` is the content of the source buffer (`none` when the
pointer is absent) and `pcbWritten` tells whether the count is wanted: when it is not, the
primitive stores the count in `dummy_count` and nothing is reported. -/
def IStream_fnWrite {σ : Type} (K : Kernel σ) (iface : Nat) (pv : Option (List Nat)) (cb : Nat)
    (pcbWritten : Bool) (p : Proc σ) : Option ((Int × Option Nat) × Proc σ) :=
  match pv with
  | none => some ((STG_E_INVALIDPOINTER, none), p)
  | some buf =>
    match p.mem iface with
    | none => none
    | some This =>
      let r := K.WriteFile This.handle buf cb p.os
      let p1 := p.sys (OsCall.WriteFile This.handle buf cb) r.2
      let out := if pcbWritten then some r.1.2 else none
      if !r.1.1 then some ((E_FAIL, out), p1)
      else some ((S_OK, out), p1)

/-- The function `IStream_fnSeek`. `dlibMove` is the signed 64-bit offset; the result is the
status and the value stored in `*plibNewPosition`. -/
def IStream_fnSeek {σ : Type} (K : Kernel σ) (iface : Nat) (dlibMove : Int) (dwOrigin : Nat)
    (p : Proc σ) : Option ((Int × Option Nat) × Proc σ) :=
  match p.mem iface with
  | none => none
  | some This =>
    let pos : Nat := (dlibMove % 4294967296).toNat
    let newposhi : Nat := 0
    let r := K.SetFilePointer This.handle pos (some newposhi) dwOrigin p.os
    let p1 := p.sys (OsCall.SetFilePointer This.handle pos (some newposhi) dwOrigin) r.2
    let newposlo := r.1.1
    let newposhi := r.1.2
    if newposlo = INVALID_SET_FILE_POINTER then some ((E_FAIL, none), p1)
    else some ((S_OK, some ((newposlo ||| (newposhi <<< 32)) % 18446744073709551616)), p1)

/-- The function `IStream_fnSetSize`. `libNewSize` is the unsigned 64-bit size; the primitive
receives its low 32 bits as the (signed) distance and no high part. -/
def IStream_fnSetSize {σ : Type} (K : Kernel σ) (iface : Nat) (libNewSize : Nat)
    (p : Proc σ) : Option (Int × Proc σ) :=
  match p.mem iface with
  | none => none
  | some This =>
    let r := K.SetFilePointer This.handle (libNewSize % 4294967296) none FILE_BEGIN p.os
    let p1 := p.sys
      (OsCall.SetFilePointer This.handle (libNewSize % 4294967296) none FILE_BEGIN) r.2
    if r.1.1 = 0 then some (E_FAIL, p1)
    else
      let e := K.SetEndOfFile This.handle p1.os
      let p2 := p1.sys (OsCall.SetEndOfFile This.handle) e.2
      if !e.1 then some (E_FAIL, p2)
      else some (S_OK, p2)

/-- The function `IStream_fnCopyTo`: status, `*pcbRead`, `*pcbWritten`. -/
def IStream_fnCopyTo {σ : Type} (_iface _pstm _cb : Nat) (p : Proc σ) :
    (Int × Option Nat × Option Nat) × Proc σ :=
  ((E_NOTIMPL, none, none), p)

/-- The function `IStream_fnCommit`. -/
def IStream_fnCommit {σ : Type} (_iface _grfCommitFlags : Nat) (p : Proc σ) : Int × Proc σ :=
  (E_NOTIMPL, p)

/-- The function `IStream_fnRevert`. -/
def IStream_fnRevert {σ : Type} (_iface : Nat) (p : Proc σ) : Int × Proc σ :=
  (E_NOTIMPL, p)

/-- The function `IStream_fnLockRegion`. -/
def IStream_fnLockRegion {σ : Type} (_iface _libOffset _cb _dwLockType : Nat) (p : Proc σ) :
    Int × Proc σ :=
  (E_NOTIMPL, p)

/-- The function `IStream_fnUnlockRegion`. -/
def IStream_fnUnlockRegion {σ : Type} (_iface _libOffset _cb _dwLockType : Nat) (p : Proc σ) :
    Int × Proc σ :=
  (E_NOTIMPL, p)

/-- The function `IStream_fnStat`: status and the content stored in `*pstatstg`. -/
def IStream_fnStat {σ : Type} (_iface : Nat) (_pstatstg : Nat) (_grfStatFlag : Nat)
    (p : Proc σ) : (Int × Option (List Nat)) × Proc σ :=
  ((E_NOTIMPL, none), p)

/-- The function `IStream_fnClone`: status and the value stored in `*ppstm`. -/
def IStream_fnClone {σ : Type} (_iface : Nat) (_ppstm : Nat) (p : Proc σ) :
    (Int × Option Nat) × Proc σ :=
  ((E_NOTIMPL, none), p)

/-- The function `CreateStreamOnFile`: status and the value stored in `*ppstm` (`none` when
nothing is stored). `pszFilename` is the path as its sequence of wide characters. -/
def CreateStreamOnFile {σ : Type} (K : Kernel σ) (pszFilename : List Nat) (grfMode : Nat)
    (p : Proc σ) : (Int × Option Nat) × Proc σ :=
  if grfMode &&& STGM_TRANSACTED ≠ 0 then ((E_INVALIDARG, none), p)
  else
    let access : Option Nat :=
      if STGM_ACCESS_MODE grfMode = STGM_READ then some GENERIC_READ
      else if STGM_ACCESS_MODE grfMode = STGM_WRITE ∨ STGM_ACCESS_MODE grfMode = STGM_READWRITE
      then some (GENERIC_WRITE ||| GENERIC_READ)
      else none
    match access with
    | none => ((STG_E_INVALIDFLAG, none), p)
    | some access =>
      let creat : Option Nat :=
        if STGM_CREATE_MODE grfMode = STGM_CREATE then some CREATE_ALWAYS
        else if STGM_CREATE_MODE grfMode = STGM_FAILIFTHERE then some OPEN_EXISTING
        else none
      match creat with
      | none => ((STG_E_INVALIDFLAG, none), p)
      | some creat =>
        let r := K.CreateFileW pszFilename access FILE_SHARE_READ creat p.os
        let p1 := p.sys (OsCall.CreateFileW pszFilename access FILE_SHARE_READ creat) r.2
        let handle := r.1
        if handle = INVALID_HANDLE_VALUE then
          ((HRESULT_FROM_WIN32 (K.GetLastError p1.os), none), p1.sys OsCall.GetLastError p1.os)
        else
          let a := K.HeapAlloc p1.os
          let p2 := p1.sys OsCall.HeapAlloc a.2
          let fstr := a.1
          if fstr = 0 then ((E_OUTOFMEMORY, none), p2)
          else ((S_OK, some fstr), p2.store fstr (some { ref := 1, handle := handle }))

/-! ## A concrete kernel: files as byte sequences, handles with a current position

The file primitives are outside the source tree. This kernel gives them the behaviour the
platform documents for them, on a model of a file as a byte sequence and of a handle as an
entry with a current position. -/

/-- An entry of the handle table: the file it names, the access it was opened with, its share
mode, its current position, and whether it is still open. -/
structure FileObject where
  name : List Nat
  canRead : Bool
  canWrite : Bool
  share : Nat
  pos : Nat
  isOpen : Bool
deriving DecidableEq, Repr

/-- The state of the concrete kernel. A handle is an index in `handles`; `files` maps a path to
the bytes of the file; blocks of the heap are handed out until `heapLimit` is reached. -/
structure Win32 where
  files : List Nat → Option (List Nat)
  handles : List FileObject
  lastError : Nat
  heapUsed : Nat
  heapLimit : Nat

/-- The state after a failed primitive: only the last-error code changes. -/
def Win32.fail (w : Win32) (e : Nat) : Win32 := { w with lastError := e }

/-- The open file behind a handle, if the handle is valid. -/
def Win32.file? (w : Win32) (h : Nat) : Option FileObject :=
  match w.handles[h]? with
  | some f => if f.isOpen then some f else none
  | none => none

/-- The bytes of the file an entry names (empty if there is none). -/
def Win32.data (w : Win32) (f : FileObject) : List Nat := (w.files f.name).getD []

/-- The state with the bytes of the file at `name` replaced. -/
def Win32.setData (w : Win32) (name : List Nat) (d : List Nat) : Win32 :=
  { w with files := fun n => if n = name then some d else w.files n }

/-- The state with the entry of handle `h` replaced. -/
def Win32.setFile (w : Win32) (h : Nat) (f : FileObject) : Win32 :=
  { w with handles := w.handles.set h f }

/-- A 32-bit pattern read as a signed `LONG`. -/
def toLONG (x : Nat) : Int :=
  if x % 4294967296 < 2147483648 then (x % 4294967296 : Nat) else (x % 4294967296 : Nat) - 4294967296

/-- A 64-bit pattern read as a signed `LONGLONG`. -/
def toLONGLONG (x : Nat) : Int :=
  if x % 18446744073709551616 < 9223372036854775808 then (x % 18446744073709551616 : Nat)
  else (x % 18446744073709551616 : Nat) - 18446744073709551616

/-- The list `d` cut or zero-extended to exactly `n` bytes. -/
def resize (d : List Nat) (n : Nat) : List Nat := (d ++ List.replicate (n - d.length) 0).take n

/-- Whether an open entry forbids a new open of `name` with this access and share mode. -/
def shareConflict (f : FileObject) (name : List Nat) (access share : Nat) : Bool :=
  f.isOpen && decide (f.name = name) &&
    ((f.canRead && decide (share &&& FILE_SHARE_READ = 0)) ||
     (f.canWrite && decide (share &&& FILE_SHARE_WRITE = 0)) ||
     (decide (access &&& GENERIC_READ ≠ 0) && decide (f.share &&& FILE_SHARE_READ = 0)) ||
     (decide (access &&& GENERIC_WRITE ≠ 0) && decide (f.share &&& FILE_SHARE_WRITE = 0)))

/-- The bytes of the file once opened with a disposition, or the error code of the failure. -/
def openContent (old : Option (List Nat)) (disp : Nat) : Except Nat (List Nat) :=
  match old with
  | some d =>
    if disp = CREATE_NEW then Except.error ERROR_FILE_EXISTS
    else if disp = CREATE_ALWAYS ∨ disp = TRUNCATE_EXISTING then Except.ok []
    else if disp = OPEN_EXISTING ∨ disp = OPEN_ALWAYS then Except.ok d
    else Except.error ERROR_INVALID_PARAMETER
  | none =>
    if disp = CREATE_NEW ∨ disp = CREATE_ALWAYS ∨ disp = OPEN_ALWAYS then Except.ok []
    else if disp = OPEN_EXISTING ∨ disp = TRUNCATE_EXISTING then Except.error ERROR_FILE_NOT_FOUND
    else Except.error ERROR_INVALID_PARAMETER

/-- Modelled from the spec: the OS open primitive `CreateFileW`, which is not part of the source
tree. The open fails on a sharing conflict, on a full table, or when the disposition does not
fit the presence of the file; otherwise the file is created, emptied or kept as the
disposition says, and the new handle is the next index of the table, at position 0. -/
def Win32.CreateFileW (name : List Nat) (access share disp : Nat) (w : Win32) : Nat × Win32 :=
  if w.handles.any (fun f => shareConflict f name access share) then
    (INVALID_HANDLE_VALUE, w.fail ERROR_SHARING_VIOLATION)
  else if INVALID_HANDLE_VALUE ≤ w.handles.length then
    (INVALID_HANDLE_VALUE, w.fail ERROR_TOO_MANY_OPEN_FILES)
  else
    match openContent (w.files name) disp with
    | Except.error e => (INVALID_HANDLE_VALUE, w.fail e)
    | Except.ok d =>
      (w.handles.length,
        { (w.setData name d) with
          handles := w.handles ++
            [{ name := name, canRead := decide (access &&& GENERIC_READ ≠ 0),
               canWrite := decide (access &&& GENERIC_WRITE ≠ 0), share := share, pos := 0,
               isOpen := true }] })

/-- Modelled from the spec: the OS read primitive `ReadFile`, which is not part of the source
tree. It reads at the current position of the handle: the bytes from there, at most `n` of
them, and the position advances by what was read. -/
def Win32.ReadFile (h n : Nat) (w : Win32) : (Bool × List Nat) × Win32 :=
  match w.file? h with
  | none => ((false, []), w.fail ERROR_INVALID_HANDLE)
  | some f =>
    if !f.canRead then ((false, []), w.fail ERROR_ACCESS_DENIED)
    else
      let bytes := ((w.data f).drop f.pos).take n
      ((true, bytes), w.setFile h { f with pos := f.pos + bytes.length })

/-- Modelled from the spec: the OS write primitive `WriteFile`, which is not part of the source
tree. It writes at the current position of the handle: the first `n` bytes of the buffer
replace the bytes there (the file is zero-extended up to that position first), and the
position advances by what was written. -/
def Win32.WriteFile (h : Nat) (buf : List Nat) (n : Nat) (w : Win32) : (Bool × Nat) × Win32 :=
  match w.file? h with
  | none => ((false, 0), w.fail ERROR_INVALID_HANDLE)
  | some f =>
    if !f.canWrite then ((false, 0), w.fail ERROR_ACCESS_DENIED)
    else
      let b := buf.take n
      if b = [] then ((true, 0), w)
      else
        let d := resize (w.data f) f.pos ++ b ++ (w.data f).drop (f.pos + b.length)
        ((true, b.length), (w.setData f.name d).setFile h { f with pos := f.pos + b.length })

/-- Modelled from the spec: the OS positioning primitive `SetFilePointer`, which is not part of
the source tree, with standard seek semantics: the target is the distance added to 0, to the
current position or to the size of the file. Without a high part the distance is the signed
32-bit `lo`; with one it is the signed 64-bit value of the two halves. A negative target
fails with the sentinel, and so does a target beyond 32 bits when there is no high part; on
success the low and high halves of the new position are returned. -/
def Win32.SetFilePointer (h lo : Nat) (hi : Option Nat) (method : Nat) (w : Win32) :
    (Nat × Nat) × Win32 :=
  match w.file? h with
  | none => ((INVALID_SET_FILE_POINTER, hi.getD 0), w.fail ERROR_INVALID_HANDLE)
  | some f =>
    let dist : Int :=
      match hi with
      | none => toLONG lo
      | some x => toLONGLONG (lo % 4294967296 + (x % 4294967296) * 4294967296)
    let base : Option Nat :=
      if method = FILE_BEGIN then some 0
      else if method = FILE_CURRENT then some f.pos
      else if method = FILE_END then some (w.data f).length
      else none
    match base with
    | none => ((INVALID_SET_FILE_POINTER, hi.getD 0), w.fail ERROR_INVALID_PARAMETER)
    | some b =>
      let target : Int := (b : Int) + dist
      if target < 0 then ((INVALID_SET_FILE_POINTER, hi.getD 0), w.fail ERROR_NEGATIVE_SEEK)
      else if hi = none ∧ 4294967296 ≤ target then
        ((INVALID_SET_FILE_POINTER, 0), w.fail ERROR_INVALID_PARAMETER)
      else
        ((target.toNat % 4294967296, target.toNat / 4294967296 % 4294967296),
          w.setFile h { f with pos := target.toNat })

/-- Modelled from the spec: the OS truncation primitive `SetEndOfFile`, which is not part of the
source tree: the file is cut or zero-extended to end at the current position. -/
def Win32.SetEndOfFile (h : Nat) (w : Win32) : Bool × Win32 :=
  match w.file? h with
  | none => (false, w.fail ERROR_INVALID_HANDLE)
  | some f =>
    if !f.canWrite then (false, w.fail ERROR_ACCESS_DENIED)
    else (true, w.setData f.name (resize (w.data f) f.pos))

/-- Modelled from the spec: the OS primitive `CloseHandle`, which is not part of the source
tree: an open handle is closed, any other handle is an error. -/
def Win32.CloseHandle (h : Nat) (w : Win32) : Bool × Win32 :=
  match w.file? h with
  | none => (false, w.fail ERROR_INVALID_HANDLE)
  | some f => (true, w.setFile h { f with isOpen := false })

/-- Modelled from the spec: the OS primitive `HeapAlloc`, which is not part of the source tree:
the next block, or `0` when the heap is exhausted. -/
def Win32.HeapAlloc (w : Win32) : Nat × Win32 :=
  if w.heapLimit ≤ w.heapUsed then (0, w)
  else (65536 + 16 * w.heapUsed, { w with heapUsed := w.heapUsed + 1 })

/-- The concrete kernel. -/
def win32 : Kernel Win32 where
  CreateFileW := Win32.CreateFileW
  GetLastError := fun w => w.lastError
  HeapAlloc := Win32.HeapAlloc
  HeapFree := fun _ w => w
  ReadFile := Win32.ReadFile
  WriteFile := Win32.WriteFile
  SetFilePointer := Win32.SetFilePointer
  SetEndOfFile := Win32.SetEndOfFile
  CloseHandle := Win32.CloseHandle

/-- A system with no file, no handle and room for `heapLimit` objects. -/
def Win32.boot (heapLimit : Nat) : Win32 :=
  { files := fun _ => none, handles := [], lastError := 0, heapUsed := 0, heapLimit := heapLimit }

/-- A process that has made no call yet. -/
def Proc.start {σ : Type} (s : σ) : Proc σ := { os := s, mem := fun _ => none, calls := [] }

/-! ## Observations and call sequences -/

/-- The primitives invoked between the process states `p` and `q`. -/
def Proc.since {σ : Type} (p q : Proc σ) : List OsCall := q.calls.drop p.calls.length

/-- A lifetime call on a stream: `AddRef`, `QueryInterface` for an identifier, `Release`. -/
inductive Op where
  | Retain
  | Query (riid : GUID)
  | Release
deriving DecidableEq, Repr

/-- What a lifetime call returns: a count, or a status with the value left in `*ppvObj`. -/
inductive Ret where
  | count (n : Nat)
  | status (hr : Int) (ppvObj : Nat)
deriving DecidableEq, Repr

/-- One lifetime call through the interface pointer `iface`. -/
def step {σ : Type} (K : Kernel σ) (iface : Nat) (op : Op) (p : Proc σ) :
    Option (Ret × Proc σ) :=
  match op with
  | Op.Retain =>
    match IStream_fnAddRef iface p with
    | none => none
    | some r => some (Ret.count r.1, r.2)
  | Op.Query riid =>
    match IStream_fnQueryInterface iface riid p with
    | none => none
    | some r => some (Ret.status r.1.1 r.1.2, r.2)
  | Op.Release =>
    match IStream_fnRelease K iface p with
    | none => none
    | some r => some (Ret.count r.1, r.2)

/-- A sequence of lifetime calls through `iface`: what each returns and the final state, or
`none` as soon as one call has no defined result. -/
def run {σ : Type} (K : Kernel σ) (iface : Nat) : List Op → Proc σ → Option (List Ret × Proc σ)
  | [], p => some ([], p)
  | op :: ops, p =>
    match step K iface op p with
    | none => none
    | some r =>
      match run K iface ops r.2 with
      | none => none
      | some rs => some (r.1 :: rs.1, rs.2)

/-- Whether a call is an increment: a retain, or a query for the base or stream identifier. -/
def Op.increments : Op → Bool
  | Op.Retain => true
  | Op.Query riid => decide (riid = IID_IUnknown ∨ riid = IID_IStream)
  | Op.Release => false

/-- Whether a call is a release. -/
def Op.releases : Op → Bool
  | Op.Release => true
  | _ => false

/-- The number of increments in a sequence of calls. -/
def incs (ops : List Op) : Nat := ops.countP Op.increments

/-- The number of releases in a sequence of calls. -/
def rels (ops : List Op) : Nat := ops.countP Op.releases

/-- The stream as the triple (refCount, handleOpen, closeCount). -/
structure View where
  refCount : Nat
  handleOpen : Bool
  closeCount : Nat
deriving DecidableEq, Repr

/-- The triple of the stream at `iface` in state `q`, for a stream created in state `p`: the
count held by the object (zero once it is destroyed), whether its handle has not been closed
since `p`, and how many times it has been closed since `p`. -/
def view {σ : Type} (p q : Proc σ) (iface : Nat) : View :=
  let h := match p.mem iface with
    | some s => s.handle
    | none => 0
  { refCount := match q.mem iface with
      | some s => s.ref
      | none => 0
    handleOpen := decide ((p.since q).count (OsCall.CloseHandle h) = 0)
    closeCount := (p.since q).count (OsCall.CloseHandle h) }

/-- What the call at index `k` of a sequence on a fresh stream is to return: a retain or a
release returns the count after it (one plus the increments minus the releases so far), a
query for the base or stream identifier returns `S_OK` with the object, any other query
`E_NOINTERFACE` with `NULL`. -/
def expect (iface : Nat) (ops : List Op) (k : Nat) : Option Ret :=
  match ops[k]? with
  | none => none
  | some (Op.Query riid) =>
    some (if riid = IID_IUnknown ∨ riid = IID_IStream then Ret.status S_OK iface
      else Ret.status E_NOINTERFACE 0)
  | some _ => some (Ret.count (1 + incs (ops.take (k + 1)) - rels (ops.take (k + 1))))

/-- Modelled from the spec: an OS whose read primitive reports failure (an I/O device error,
code 1117) and which otherwise is the concrete kernel. -/
def faulty : Kernel Win32 :=
  { win32 with ReadFile := fun _ _ w => ((false, []), w.fail 1117) }

/-- The path `a` used in the concrete scenarios. -/
def pathA : List Nat := [97]

/-- The concrete scenario at its start: a process that has made no call, on a system just
booted with room for four objects. -/
def booted : Proc Win32 := Proc.start (Win32.boot 4)

/-- The concrete scenario: a stream made over a fresh file in create + read-write mode on a
system just booted. Its interface pointer is `65536` and its handle `0`. -/
def fresh : Proc Win32 :=
  (CreateStreamOnFile win32 pathA (STGM_CREATE ||| STGM_READWRITE) booted).2

/-- The concrete scenario after the four bytes 1, 2, 3, 4 were written to the fresh stream: the
file holds them and the position is 4. -/
def written : Proc Win32 :=
  match IStream_fnWrite win32 65536 (some [1, 2, 3, 4]) 4 true fresh with
  | some r => r.2
  | none => fresh

/-- The concrete call sequence: a retain, a query for the stream identifier and three
releases. -/
def lifeSeq : List Op := [Op.Retain, Op.Query IID_IStream, Op.Release, Op.Release, Op.Release]

/-! ## Auxiliary facts -/

/-- After one primitive the calls since `p` are that primitive. -/
theorem since_sys {σ : Type} (p : Proc σ) (c : OsCall) (s : σ) : p.since (p.sys c s) = [c] := by
  simp [Proc.since, Proc.sys]

/-- After two primitives the calls since `p` are these two, in order. -/
theorem since_sys_sys {σ : Type} (p : Proc σ) (c d : OsCall) (s t : σ) :
    p.since ((p.sys c s).sys d t) = [c, d] := by
  simp [Proc.since, Proc.sys]

/-- A store to an object invokes no primitive. -/
theorem since_store {σ : Type} (p q : Proc σ) (a : Nat) (v : Option ISHFileStream) :
    p.since (q.store a v) = p.since q := rfl

/-- For a mode without the transacted flag and with valid sub-fields, all of what
`CreateStreamOnFile` does: the open with the decoded access and disposition, then the error
query on a failed open, or the allocation and, when it succeeds, the store of the object. -/
theorem create_eq {σ : Type} (K : Kernel σ) (n : List Nat) (m : Nat) (p : Proc σ)
    (access creat : Nat) (hflag : m &&& STGM_TRANSACTED = 0)
    (ha : m &&& 0xF = STGM_READ ∨ m &&& 0xF = STGM_WRITE ∨ m &&& 0xF = STGM_READWRITE)
    (hc : m &&& 0xF000 = STGM_CREATE ∨ m &&& 0xF000 = STGM_FAILIFTHERE)
    (hacc : access = if m &&& 0xF = STGM_READ then GENERIC_READ
      else GENERIC_READ ||| GENERIC_WRITE)
    (hcr : creat = if m &&& 0xF000 = STGM_CREATE then CREATE_ALWAYS else OPEN_EXISTING) :
    CreateStreamOnFile K n m p =
      if (K.CreateFileW n access FILE_SHARE_READ creat p.os).1 = INVALID_HANDLE_VALUE then
        ((HRESULT_FROM_WIN32 (K.GetLastError (K.CreateFileW n access FILE_SHARE_READ creat p.os).2),
          none),
          (p.sys (OsCall.CreateFileW n access FILE_SHARE_READ creat)
            (K.CreateFileW n access FILE_SHARE_READ creat p.os).2).sys OsCall.GetLastError
              (K.CreateFileW n access FILE_SHARE_READ creat p.os).2)
      else if (K.HeapAlloc (K.CreateFileW n access FILE_SHARE_READ creat p.os).2).1 = 0 then
        ((E_OUTOFMEMORY, none),
          (p.sys (OsCall.CreateFileW n access FILE_SHARE_READ creat)
            (K.CreateFileW n access FILE_SHARE_READ creat p.os).2).sys OsCall.HeapAlloc
              (K.HeapAlloc (K.CreateFileW n access FILE_SHARE_READ creat p.os).2).2)
      else
        ((S_OK, some (K.HeapAlloc (K.CreateFileW n access FILE_SHARE_READ creat p.os).2).1),
          ((p.sys (OsCall.CreateFileW n access FILE_SHARE_READ creat)
            (K.CreateFileW n access FILE_SHARE_READ creat p.os).2).sys OsCall.HeapAlloc
              (K.HeapAlloc (K.CreateFileW n access FILE_SHARE_READ creat p.os).2).2).store
            (K.HeapAlloc (K.CreateFileW n access FILE_SHARE_READ creat p.os).2).1
            (some { ref := 1,
                    handle := (K.CreateFileW n access FILE_SHARE_READ creat p.os).1 })) := by
  subst hacc
  subst hcr
  unfold CreateStreamOnFile
  simp only [STGM_ACCESS_MODE, STGM_CREATE_MODE, hflag, ne_eq, not_true_eq_false, if_false]
  rcases ha with h | h | h <;> rcases hc with h' | h' <;>
    simp [h, h', STGM_READ, STGM_WRITE, STGM_READWRITE, STGM_CREATE, STGM_FAILIFTHERE,
      GENERIC_READ, GENERIC_WRITE, Proc.sys]

/-- For a mode without the transacted flag and with an invalid sub-field,
`CreateStreamOnFile` returns `STG_E_INVALIDFLAG` and changes nothing. -/
theorem create_invalid {σ : Type} (K : Kernel σ) (n : List Nat) (m : Nat) (p : Proc σ)
    (hflag : m &&& STGM_TRANSACTED = 0)
    (hn : ¬ ((m &&& 0xF = STGM_READ ∨ m &&& 0xF = STGM_WRITE ∨ m &&& 0xF = STGM_READWRITE) ∧
      (m &&& 0xF000 = STGM_CREATE ∨ m &&& 0xF000 = STGM_FAILIFTHERE))) :
    CreateStreamOnFile K n m p = ((STG_E_INVALIDFLAG, none), p) := by
  unfold CreateStreamOnFile
  simp only [STGM_ACCESS_MODE, STGM_CREATE_MODE, hflag]
  by_cases ha : m &&& 0xF = STGM_READ ∨ m &&& 0xF = STGM_WRITE ∨ m &&& 0xF = STGM_READWRITE
  · have hc : ¬ (m &&& 0xF000 = STGM_CREATE ∨ m &&& 0xF000 = STGM_FAILIFTHERE) :=
      fun hc => hn ⟨ha, hc⟩
    rw [not_or] at hc
    simp only [hc.1, hc.2, if_false, ne_eq, not_true_eq_false]
    split <;> rfl
  · simp only [not_or] at ha
    simp [ha.1, ha.2.1, ha.2.2]

/-- A valid handle is an index of the table and its entry is open. -/
theorem file?_lt {w : Win32} {h : Nat} {f : FileObject} (hf : w.file? h = some f) :
    h < w.handles.length ∧ f.isOpen = true ∧ w.handles[h]? = some f := by
  unfold Win32.file? at hf
  cases hg : w.handles[h]? with
  | none => simp [hg] at hf
  | some g =>
    simp only [hg] at hf
    by_cases ho : g.isOpen = true
    · simp only [ho, if_true, Option.some.injEq] at hf
      subst hf
      exact ⟨(List.getElem?_eq_some_iff.mp hg).1, ho, rfl⟩
    · simp [ho] at hf

/-- Replacing the entry of a handle by an open entry makes it the file of the handle. -/
theorem file?_setFile {w : Win32} {h : Nat} (g : FileObject) (hlt : h < w.handles.length)
    (hg : g.isOpen = true) : (w.setFile h g).file? h = some g := by
  simp [Win32.file?, Win32.setFile, hlt, hg]

/-- Replacing an entry of the handle table leaves the bytes of every file alone. -/
theorem data_setFile (w : Win32) (h : Nat) (g f : FileObject) :
    (w.setFile h g).data f = w.data f := rfl

/-- The bytes of a file just replaced are the new bytes. -/
theorem data_setData (w : Win32) (n d : List Nat) (g : FileObject) (hn : g.name = n) :
    (w.setData n d).data g = d := by
  simp [Win32.data, Win32.setData, hn]

/-- On the concrete kernel, a write of `b` on a writable handle at position 0 succeeds,
reports the length of `b`, and leaves `b` at the start of the file. -/
theorem write_at_start {iface : Nat} {p : Proc Win32} {This : ISHFileStream} {f : FileObject}
    (b : List Nat) (hlive : p.mem iface = some This) (hopen : p.os.file? This.handle = some f)
    (hw : f.canWrite = true) (hpos : f.pos = 0) :
    ∃ p1 f1, IStream_fnWrite win32 iface (some b) b.length true p =
        some ((S_OK, some b.length), p1) ∧
      p1.mem = p.mem ∧ p1.os.file? This.handle = some f1 ∧ f1.canRead = f.canRead ∧
      p1.os.data f1 = b ++ (p.os.data f).drop b.length := by
  obtain ⟨hlt, hio, -⟩ := file?_lt hopen
  by_cases hb : b = []
  · subst hb
    have hk : Win32.WriteFile This.handle [] 0 p.os = ((true, 0), p.os) := by
      simp [Win32.WriteFile, hopen, hw]
    refine ⟨p.sys (OsCall.WriteFile This.handle [] 0) p.os, f, ?_, rfl, hopen, rfl, ?_⟩
    · simp [IStream_fnWrite, hlive, win32, hk]
    · simp [Proc.sys]
  · have hk : Win32.WriteFile This.handle b b.length p.os = ((true, b.length),
        (p.os.setData f.name (resize (p.os.data f) f.pos ++ b ++
          (p.os.data f).drop (f.pos + b.length))).setFile This.handle
            { f with pos := f.pos + b.length }) := by
      simp [Win32.WriteFile, hopen, hw, hb]
    refine ⟨p.sys (OsCall.WriteFile This.handle b b.length)
        (Win32.WriteFile This.handle b b.length p.os).2,
      { f with pos := f.pos + b.length }, ?_, rfl, ?_, rfl, ?_⟩
    · simp [IStream_fnWrite, hlive, win32, hk]
    · simp only [Proc.sys, hk]
      exact file?_setFile _ hlt hio
    · simp only [Proc.sys, hk, data_setFile]
      rw [data_setData p.os f.name _ { f with pos := f.pos + b.length } rfl]
      simp [resize, hpos]

/-- On the concrete kernel, a seek to offset 0 from the beginning succeeds, reports 0 and
leaves the handle at position 0 with the bytes of the file unchanged. -/
theorem seek_begin {iface : Nat} {p : Proc Win32} {This : ISHFileStream} {f : FileObject}
    (hlive : p.mem iface = some This) (hopen : p.os.file? This.handle = some f) :
    ∃ p2, IStream_fnSeek win32 iface 0 FILE_BEGIN p = some ((S_OK, some 0), p2) ∧
      p2.mem = p.mem ∧ p2.os.file? This.handle = some { f with pos := 0 } ∧
      p2.os.data { f with pos := 0 } = p.os.data f := by
  obtain ⟨hlt, hio, -⟩ := file?_lt hopen
  have hk : Win32.SetFilePointer This.handle 0 (some 0) FILE_BEGIN p.os =
      ((0, 0), p.os.setFile This.handle { f with pos := 0 }) := by
    simp [Win32.SetFilePointer, hopen, FILE_BEGIN, toLONGLONG]
  refine ⟨p.sys (OsCall.SetFilePointer This.handle 0 (some 0) FILE_BEGIN)
    (Win32.SetFilePointer This.handle 0 (some 0) FILE_BEGIN p.os).2, ?_, rfl, ?_, ?_⟩
  · simp [IStream_fnSeek, hlive, win32, hk, INVALID_SET_FILE_POINTER]
  · simp only [Proc.sys, hk]
    exact file?_setFile _ hlt hio
  · simp only [Proc.sys, hk]
    rfl

/-- On the concrete kernel, a read on a readable handle succeeds with the bytes found at
the current position, at most `n` of them. -/
theorem read_here {iface : Nat} {p : Proc Win32} {This : ISHFileStream} {f : FileObject}
    (n : Nat) (hlive : p.mem iface = some This) (hopen : p.os.file? This.handle = some f)
    (hr : f.canRead = true) :
    ∃ p3, IStream_fnRead win32 iface true n true p =
      some ((S_OK, ((p.os.data f).drop f.pos).take n,
        some (((p.os.data f).drop f.pos).take n).length), p3) := by
  have hk : Win32.ReadFile This.handle n p.os = ((true, ((p.os.data f).drop f.pos).take n),
      p.os.setFile This.handle
        { f with pos := f.pos + (((p.os.data f).drop f.pos).take n).length }) := by
    simp [Win32.ReadFile, hopen, hr]
  exact ⟨p.sys (OsCall.ReadFile This.handle n) (Win32.ReadFile This.handle n p.os).2, by
    simp [IStream_fnRead, hlive, win32, hk]⟩

/-- A stream that `CreateStreamOnFile` reports created: the open primitive returned a valid
handle, the allocation returned the non-null address of the stream, the object there holds
the count 1 and that handle, and the system is in the state the allocation left. -/
theorem create_success {σ : Type} {K : Kernel σ} {n : List Nat} {m iface : Nat}
    {p0 p : Proc σ} (h : CreateStreamOnFile K n m p0 = ((S_OK, some iface), p)) :
    ∃ access creat,
      access = (if m &&& 0xF = STGM_READ then GENERIC_READ
        else GENERIC_READ ||| GENERIC_WRITE) ∧
      creat = (if m &&& 0xF000 = STGM_CREATE then CREATE_ALWAYS else OPEN_EXISTING) ∧
      (K.CreateFileW n access FILE_SHARE_READ creat p0.os).1 ≠ INVALID_HANDLE_VALUE ∧
      iface = (K.HeapAlloc (K.CreateFileW n access FILE_SHARE_READ creat p0.os).2).1 ∧
      iface ≠ 0 ∧
      p.mem iface =
        some (⟨1, (K.CreateFileW n access FILE_SHARE_READ creat p0.os).1⟩ : ISHFileStream) ∧
      p.os = (K.HeapAlloc (K.CreateFileW n access FILE_SHARE_READ creat p0.os).2).2 ∧
      p0.since p = [OsCall.CreateFileW n access FILE_SHARE_READ creat, OsCall.HeapAlloc] := by
  by_cases hflag : m &&& STGM_TRANSACTED = 0
  · by_cases hv : (m &&& 0xF = STGM_READ ∨ m &&& 0xF = STGM_WRITE ∨ m &&& 0xF = STGM_READWRITE) ∧
        (m &&& 0xF000 = STGM_CREATE ∨ m &&& 0xF000 = STGM_FAILIFTHERE)
    · obtain ⟨access, hacc⟩ : ∃ a, a = (if m &&& 0xF = STGM_READ then GENERIC_READ
          else GENERIC_READ ||| GENERIC_WRITE) := ⟨_, rfl⟩
      obtain ⟨creat, hcr⟩ : ∃ c, c = (if m &&& 0xF000 = STGM_CREATE then CREATE_ALWAYS
          else OPEN_EXISTING) := ⟨_, rfl⟩
      refine ⟨access, creat, hacc, hcr, ?_⟩
      rw [create_eq K n m p0 access creat hflag hv.1 hv.2 hacc hcr] at h
      split_ifs at h with h1 h2
      · simp at h
      · simp at h
      · simp only [Prod.mk.injEq, Option.some.injEq, true_and] at h
        obtain ⟨h3, h4⟩ := h
        subst h4
        subst h3
        exact ⟨h1, rfl, h2, by simp [Proc.store], rfl, by simp [since_store, since_sys_sys]⟩
    · rw [create_invalid K n m p0 hflag hv] at h
      simp at h
  · unfold CreateStreamOnFile at h
    rw [if_pos hflag] at h
    simp at h

/-- Unfolding of `run` on a non-empty sequence. -/
theorem run_cons {σ : Type} (K : Kernel σ) (iface : Nat) (op : Op) (ops : List Op)
    (p : Proc σ) :
    run K iface (op :: ops) p =
      match step K iface op p with
      | none => none
      | some r =>
        match run K iface ops r.2 with
        | none => none
        | some rs => some (r.1 :: rs.1, rs.2) := rfl

/-- Unfolding of `run` on the empty sequence. -/
theorem run_nil {σ : Type} (K : Kernel σ) (iface : Nat) (p : Proc σ) :
    run K iface [] p = some ([], p) := rfl

/-- A sequence followed by one more call runs the sequence and then the call. -/
theorem run_snoc {σ : Type} (K : Kernel σ) (iface : Nat) (ops : List Op) (op : Op)
    (p : Proc σ) :
    run K iface (ops ++ [op]) p =
      match run K iface ops p with
      | none => none
      | some r =>
        match step K iface op r.2 with
        | none => none
        | some s => some (r.1 ++ [s.1], s.2) := by
  induction ops generalizing p with
  | nil =>
    simp only [List.nil_append, run_cons, run_nil]
  | cons x xs ih =>
    rw [List.cons_append, run_cons, run_cons]
    cases hx : step K iface x p with
    | none => rfl
    | some r =>
      simp only [ih]
      cases hr : run K iface xs r.2 with
      | none => rfl
      | some rs =>
        simp only
        cases hs : step K iface op rs.2 <;> simp

/-- A retain on a live object whose count is not at the 32-bit maximum. -/
theorem step_retain {σ : Type} (K : Kernel σ) {iface c hd : Nat} {p : Proc σ}
    (hm : p.mem iface = some { ref := c, handle := hd }) (hc : c + 1 < 4294967296) :
    step K iface Op.Retain p =
      some (Ret.count (c + 1), p.store iface (some { ref := c + 1, handle := hd })) := by
  simp [step, IStream_fnAddRef, hm, InterlockedIncrement, Nat.mod_eq_of_lt hc]

/-- A query for the base or stream identifier on a live object. -/
theorem step_query_hit {σ : Type} (K : Kernel σ) {iface c hd : Nat} {p : Proc σ} {riid : GUID}
    (hi : iface ≠ 0) (hm : p.mem iface = some { ref := c, handle := hd })
    (hc : c + 1 < 4294967296) (hr : riid = IID_IUnknown ∨ riid = IID_IStream) :
    step K iface (Op.Query riid) p =
      some (Ret.status S_OK iface, p.store iface (some { ref := c + 1, handle := hd })) := by
  have hq : (IsEqualIID riid IID_IUnknown || IsEqualIID riid IID_IStream) = true := by
    simpa [IsEqualIID] using hr
  simp [step, IStream_fnQueryInterface, hq, hi, IStream_fnAddRef, hm, InterlockedIncrement,
    Nat.mod_eq_of_lt hc]

/-- A query for any other identifier touches nothing. -/
theorem step_query_miss {σ : Type} (K : Kernel σ) (iface : Nat) (p : Proc σ) {riid : GUID}
    (hr : ¬ (riid = IID_IUnknown ∨ riid = IID_IStream)) :
    step K iface (Op.Query riid) p = some (Ret.status E_NOINTERFACE 0, p) := by
  have hq : (IsEqualIID riid IID_IUnknown || IsEqualIID riid IID_IStream) = false := by
    simpa [IsEqualIID] using hr
  simp [step, IStream_fnQueryInterface, hq]

/-- A release that leaves the count at 1 or more. -/
theorem step_release_keep {σ : Type} (K : Kernel σ) {iface c hd : Nat} {p : Proc σ}
    (hm : p.mem iface = some { ref := c, handle := hd }) (hc : 2 ≤ c) (hc' : c < 4294967296) :
    step K iface Op.Release p =
      some (Ret.count (c - 1), p.store iface (some { ref := c - 1, handle := hd })) := by
  have h1 : (c + 4294967295) % 4294967296 = c - 1 := by omega
  have h2 : c - 1 ≠ 0 := by omega
  simp [step, IStream_fnRelease, hm, InterlockedDecrement, h1, h2]

/-- Increments of a sequence extended by one call. -/
theorem incs_snoc (xs : List Op) (x : Op) :
    incs (xs ++ [x]) = incs xs + if x.increments = true then 1 else 0 := by
  simp [incs, List.countP_append, List.countP_singleton]

/-- Releases of a sequence extended by one call. -/
theorem rels_snoc (xs : List Op) (x : Op) :
    rels (xs ++ [x]) = rels xs + if x.releases = true then 1 else 0 := by
  simp [rels, List.countP_append, List.countP_singleton]

/-- The expected return of an earlier call does not depend on a later one. -/
theorem expect_left (iface : Nat) (xs : List Op) (x : Op) {k : Nat} (hk : k < xs.length) :
    expect iface (xs ++ [x]) k = expect iface xs k := by
  unfold expect
  rw [List.getElem?_append_left hk, List.take_append_of_le_length (Nat.succ_le_of_lt hk)]

/-- The expected return of the last call of a sequence. -/
theorem expect_last (iface : Nat) (xs : List Op) (x : Op) :
    expect iface (xs ++ [x]) xs.length =
      match x with
      | Op.Query riid =>
        some (if riid = IID_IUnknown ∨ riid = IID_IStream then Ret.status S_OK iface
          else Ret.status E_NOINTERFACE 0)
      | _ => some (Ret.count (1 + incs (xs ++ [x]) - rels (xs ++ [x]))) := by
  unfold expect
  have h1 : (xs ++ [x])[xs.length]? = some x := by simp
  have h2 : (xs ++ [x]).take (xs.length + 1) = xs ++ [x] :=
    List.take_of_length_le (by simp)
  rw [h1, h2]
  cases x <;> rfl

/-- Indexing into a list extended by one element, before the end. -/
theorem getElem?_snoc_left {α : Type} (rets : List α) (r : α) {k : Nat}
    (hk : k < rets.length) : (rets ++ [r])[k]? = rets[k]? :=
  List.getElem?_append_left hk

/-- Indexing into a list extended by one element, at the end. -/
theorem getElem?_snoc_last {α : Type} (rets : List α) (r : α) :
    (rets ++ [r])[rets.length]? = some r := by simp

/-- The release of the last reference: the handle is closed, then the object freed, and the
system is in the state these two primitives leave. -/
theorem step_release_last {σ : Type} (K : Kernel σ) {iface hd : Nat} {p : Proc σ}
    (hm : p.mem iface = some { ref := 1, handle := hd }) :
    ∃ q, step K iface Op.Release p = some (Ret.count 0, q) ∧ q.mem iface = none ∧
      q.calls = p.calls ++ [OsCall.CloseHandle hd, OsCall.HeapFree iface] ∧
      q.os = K.HeapFree iface (K.CloseHandle hd p.os).2 := by
  refine ⟨(((p.store iface (some { ref := 0, handle := hd })).sys (OsCall.CloseHandle hd)
    (K.CloseHandle hd p.os).2).sys (OsCall.HeapFree iface)
      (K.HeapFree iface (K.CloseHandle hd p.os).2)).store iface none, ?_, ?_, ?_, rfl⟩
  · simp only [step, IStream_fnRelease, hm, InterlockedDecrement]
    rfl
  · simp [Proc.store]
  · simp [Proc.store, Proc.sys]

/-- The lifetime invariant: from a live object holding the count 1, a sequence in which every
call is made while the count is at least 1 and the count stays below 2^32 runs to the end,
every call returns what `expect` says, and the object is live with the running count, no
primitive invoked and the system untouched, or else the last call was the release that closed
the handle and freed the object. -/
theorem run_live {σ : Type} (K : Kernel σ) {iface hd : Nat} {p : Proc σ} (hi : iface ≠ 0)
    (hm : p.mem iface = some { ref := 1, handle := hd }) (ops : List Op)
    (hlive : ∀ k, k < ops.length → rels (ops.take k) < 1 + incs (ops.take k))
    (hcount : ∀ k, k ≤ ops.length →
      1 + incs (ops.take k) < 4294967296 + rels (ops.take k)) :
    ∃ rets q, run K iface ops p = some (rets, q) ∧ rets.length = ops.length ∧
      (∀ k, k < ops.length → rets[k]? = expect iface ops k) ∧
      rels ops ≤ 1 + incs ops ∧
      (rels ops < 1 + incs ops →
        q.mem iface = some { ref := 1 + incs ops - rels ops, handle := hd } ∧
        q.calls = p.calls ∧ q.os = p.os) ∧
      (rels ops = 1 + incs ops →
        q.mem iface = none ∧
        q.calls = p.calls ++ [OsCall.CloseHandle hd, OsCall.HeapFree iface] ∧
        q.os = K.HeapFree iface (K.CloseHandle hd p.os).2 ∧
        ∃ pre, ops = pre ++ [Op.Release]) := by
  induction ops using List.reverseRecOn with
  | nil =>
    refine ⟨[], p, rfl, rfl, ?_, ?_, ?_, ?_⟩
    · intro k hk
      simp at hk
    · simp [rels, incs]
    · intro _
      exact ⟨by simpa [rels, incs] using hm, rfl, rfl⟩
    · intro h
      simp [rels, incs] at h
  | append_singleton xs x ih =>
    have hlive' : ∀ k, k < xs.length → rels (xs.take k) < 1 + incs (xs.take k) := by
      intro k hk
      have := hlive k (by simp; omega)
      rwa [List.take_append_of_le_length (Nat.le_of_lt hk)] at this
    have hcount' : ∀ k, k ≤ xs.length →
        1 + incs (xs.take k) < 4294967296 + rels (xs.take k) := by
      intro k hk
      have := hcount k (by simp; omega)
      rwa [List.take_append_of_le_length hk] at this
    have hlast : rels xs < 1 + incs xs := by
      have := hlive xs.length (by simp)
      rwa [List.take_append_of_le_length (Nat.le_refl _), List.take_length] at this
    have hbefore : 1 + incs xs < 4294967296 + rels xs := by
      have := hcount' xs.length (Nat.le_refl _)
      rwa [List.take_length] at this
    have hafter : 1 + incs (xs ++ [x]) < 4294967296 + rels (xs ++ [x]) := by
      have := hcount (xs ++ [x]).length (Nat.le_refl _)
      rwa [List.take_length] at this
    obtain ⟨rets, q, hrun, hl, hret, -, hA, -⟩ := ih hlive' hcount'
    obtain ⟨hq, hcalls, hos⟩ := hA hlast
    have hrets : ∀ (r : Ret), expect iface (xs ++ [x]) xs.length = some r →
        ∀ k, k < (xs ++ [x]).length → (rets ++ [r])[k]? = expect iface (xs ++ [x]) k := by
      intro r hr k hk
      have hk' : k < xs.length ∨ k = xs.length := by
        simp at hk
        omega
      rcases hk' with hk' | hk'
      · rw [getElem?_snoc_left rets r (hl ▸ hk'), expect_left iface xs x hk']
        exact hret k hk'
      · subst hk'
        rw [hr, ← hl]
        exact getElem?_snoc_last rets r
    rw [run_snoc, hrun]
    simp only
    cases x with
    | Retain =>
      simp only [incs_snoc, rels_snoc, Op.increments, Op.releases] at hafter
      simp at hafter
      rw [step_retain K hq (by omega)]
      refine ⟨_, _, rfl, by simp [hl], hrets _ ?_, ?_, ?_, ?_⟩
      · rw [expect_last]
        simp only [incs_snoc, rels_snoc, Op.increments, Op.releases]
        simp
        omega
      · simp [incs_snoc, rels_snoc, Op.increments, Op.releases]; omega
      · intro _
        simp only [incs_snoc, rels_snoc, Op.increments, Op.releases]
        refine ⟨?_, hcalls, hos⟩
        simp [Proc.store]
        omega
      · intro h
        simp [incs_snoc, rels_snoc, Op.increments, Op.releases] at h
        omega
    | Query riid =>
      by_cases hr : riid = IID_IUnknown ∨ riid = IID_IStream
      · simp only [incs_snoc, rels_snoc, Op.increments, Op.releases] at hafter
        simp [hr] at hafter
        rw [step_query_hit K hi hq (by omega) hr]
        refine ⟨_, _, rfl, by simp [hl], hrets _ ?_, ?_, ?_, ?_⟩
        · rw [expect_last]
          simp [hr]
        · simp [incs_snoc, rels_snoc, Op.increments, Op.releases, hr]; omega
        · intro _
          simp only [incs_snoc, rels_snoc, Op.increments, Op.releases]
          refine ⟨?_, hcalls, hos⟩
          simp [Proc.store, hr]
          omega
        · intro h
          simp [incs_snoc, rels_snoc, Op.increments, Op.releases, hr] at h
          omega
      · rw [step_query_miss K iface q hr]
        refine ⟨_, _, rfl, by simp [hl], hrets _ ?_, ?_, ?_, ?_⟩
        · rw [expect_last]
          simp [hr]
        · simp [incs_snoc, rels_snoc, Op.increments, Op.releases, hr]; omega
        · intro _
          simp only [incs_snoc, rels_snoc, Op.increments, Op.releases]
          refine ⟨?_, hcalls, hos⟩
          simp [hr, hq]
        · intro h
          simp [incs_snoc, rels_snoc, Op.increments, Op.releases, hr] at h
          omega
    | Release =>
      by_cases hc : 2 ≤ 1 + incs xs - rels xs
      · rw [step_release_keep K hq hc (by omega)]
        refine ⟨_, _, rfl, by simp [hl], hrets _ ?_, ?_, ?_, ?_⟩
        · rw [expect_last]
          simp only [incs_snoc, rels_snoc, Op.increments, Op.releases]
          simp
          omega
        · simp [incs_snoc, rels_snoc, Op.increments, Op.releases]; omega
        · intro _
          simp only [incs_snoc, rels_snoc, Op.increments, Op.releases]
          refine ⟨?_, hcalls, hos⟩
          simp [Proc.store]
          omega
        · intro h
          simp [incs_snoc, rels_snoc, Op.increments, Op.releases] at h
          omega
      · have hone : 1 + incs xs - rels xs = 1 := by omega
        rw [hone] at hq
        obtain ⟨q', hstep, hmem, hcl, hos'⟩ := step_release_last K hq
        rw [hstep]
        refine ⟨_, _, rfl, by simp [hl], hrets _ ?_, ?_, ?_, ?_⟩
        · rw [expect_last]
          simp only [incs_snoc, rels_snoc, Op.increments, Op.releases]
          simp
          omega
        · simp [incs_snoc, rels_snoc, Op.increments, Op.releases]; omega
        · intro h
          simp [incs_snoc, rels_snoc, Op.increments, Op.releases] at h
          omega
        · intro _
          exact ⟨hmem, by rw [hcl, hcalls], by rw [hos', hos], xs, rfl⟩

/-- A retain on a live object: the 32-bit count is incremented, wrapping at the maximum. -/
theorem step_retain_mod {σ : Type} (K : Kernel σ) {iface c hd : Nat} {p : Proc σ}
    (hm : p.mem iface = some { ref := c, handle := hd }) :
    step K iface Op.Retain p =
      some (Ret.count ((c + 1) % 4294967296),
        p.store iface (some { ref := (c + 1) % 4294967296, handle := hd })) := by
  simp [step, IStream_fnAddRef, hm, InterlockedIncrement]

/-- A query for the base or stream identifier on a live object: `S_OK`, the object itself, and
the 32-bit count incremented, wrapping at the maximum. -/
theorem query_hit_mod {σ : Type} {iface c hd : Nat} {p : Proc σ} {riid : GUID}
    (hi : iface ≠ 0) (hm : p.mem iface = some { ref := c, handle := hd })
    (hr : riid = IID_IUnknown ∨ riid = IID_IStream) :
    IStream_fnQueryInterface iface riid p =
      some ((S_OK, iface),
        p.store iface (some { ref := (c + 1) % 4294967296, handle := hd })) := by
  have hq : (IsEqualIID riid IID_IUnknown || IsEqualIID riid IID_IStream) = true := by
    simpa [IsEqualIID] using hr
  simp [IStream_fnQueryInterface, hq, hi, IStream_fnAddRef, hm, InterlockedIncrement]

/-- A sequence of retains has no release in any initial segment. -/
theorem rels_take_retains (n k : Nat) : rels ((List.replicate n Op.Retain).take k) = 0 := by
  unfold rels
  rw [List.countP_eq_zero]
  intro a ha
  have := List.eq_of_mem_replicate (List.mem_of_mem_take ha)
  subst this
  simp [Op.releases]

/-- A run of `n` retains on a live object: it is defined, invokes no primitive, leaves the
system alone, and the 32-bit count has advanced by `n` modulo 2^32; the last retain returns
that count. -/
theorem run_retains {σ : Type} (K : Kernel σ) {iface hd : Nat} (n : Nat) {c : Nat}
    {p : Proc σ} (hm : p.mem iface = some { ref := c, handle := hd })
    (hc : c < 4294967296) :
    ∃ rets q, run K iface (List.replicate n Op.Retain) p = some (rets, q) ∧
      q.mem iface = some { ref := (c + n) % 4294967296, handle := hd } ∧
      q.calls = p.calls ∧ q.os = p.os ∧
      (0 < n → rets.getLast? = some (Ret.count ((c + n) % 4294967296))) := by
  induction n with
  | zero =>
    refine ⟨[], p, rfl, ?_, rfl, rfl, ?_⟩
    · simpa [Nat.mod_eq_of_lt hc] using hm
    · intro h
      exact absurd h (Nat.lt_irrefl 0)
  | succ n ih =>
    obtain ⟨rets, q, hrun, hq, hcalls, hos, -⟩ := ih
    rw [List.replicate_succ', run_snoc, hrun]
    simp only
    rw [step_retain_mod K hq]
    have hmod : ((c + n) % 4294967296 + 1) % 4294967296 = (c + (n + 1)) % 4294967296 := by
      omega
    refine ⟨_, _, rfl, ?_, hcalls, hos, ?_⟩
    · simp [Proc.store, hmod]
    · intro _
      simp [hmod]

/-- The triple of a stream in a state whose log extends the log at creation by `l`. -/
theorem view_of_calls {σ : Type} {p q : Proc σ} {iface hd : Nat} {l : List OsCall}
    (hm : p.mem iface = some { ref := 1, handle := hd }) (hc : q.calls = p.calls ++ l) :
    view p q iface =
      { refCount := match q.mem iface with
          | some s => s.ref
          | none => 0
        handleOpen := decide (l.count (OsCall.CloseHandle hd) = 0)
        closeCount := l.count (OsCall.CloseHandle hd) } := by
  simp [view, hm, Proc.since, hc]

/-! ## The claims -/

/-- C1. For every mode `grfMode` without the transacted flag: if the access sub-field
`grfMode & 0xF` is read, write or read-write and the creation sub-field `grfMode & 0xF000` is
create or fail-if-there, `CreateStreamOnFile` invokes the open primitive on the path, with
read access for read and read + write access otherwise, share mode `FILE_SHARE_READ`, and
disposition create-always for create and open-existing otherwise; it is the first primitive
invoked, followed by one error query or one allocation. The system is then in the state the
primitives leave: when the open fails, the state after the open, the result is the translated
error code and nothing is stored; when it succeeds, the state after the allocation, and the
result is `E_OUTOFMEMORY` with nothing stored when the allocation fails, and otherwise `S_OK`
with the address of an object that holds the count 1 and the handle the open returned. In
every other case the result is `STG_E_INVALIDFLAG`, nothing is stored in the output and the
process state, log included, is unchanged. -/
theorem C1_create_opens (σ : Type) (K : Kernel σ) (pszFilename : List Nat) (grfMode : Nat)
    (p : Proc σ) (hflag : grfMode &&& STGM_TRANSACTED = 0) :
    ((grfMode &&& 0xF = STGM_READ ∨ grfMode &&& 0xF = STGM_WRITE ∨
        grfMode &&& 0xF = STGM_READWRITE) ∧
      (grfMode &&& 0xF000 = STGM_CREATE ∨ grfMode &&& 0xF000 = STGM_FAILIFTHERE) →
      ∃ access creat,
        access = (if grfMode &&& 0xF = STGM_READ then GENERIC_READ
          else GENERIC_READ ||| GENERIC_WRITE) ∧
        creat = (if grfMode &&& 0xF000 = STGM_CREATE then CREATE_ALWAYS else OPEN_EXISTING) ∧
        (∃ tail, p.since (CreateStreamOnFile K pszFilename grfMode p).2 =
            OsCall.CreateFileW pszFilename access FILE_SHARE_READ creat :: tail ∧
          (tail = [OsCall.GetLastError] ∨ tail = [OsCall.HeapAlloc])) ∧
        ((K.CreateFileW pszFilename access FILE_SHARE_READ creat p.os).1 =
            INVALID_HANDLE_VALUE →
          (CreateStreamOnFile K pszFilename grfMode p).1 =
            (HRESULT_FROM_WIN32
              (K.GetLastError (K.CreateFileW pszFilename access FILE_SHARE_READ creat p.os).2),
              none) ∧
          (CreateStreamOnFile K pszFilename grfMode p).2.os =
            (K.CreateFileW pszFilename access FILE_SHARE_READ creat p.os).2 ∧
          (CreateStreamOnFile K pszFilename grfMode p).2.mem = p.mem) ∧
        ((K.CreateFileW pszFilename access FILE_SHARE_READ creat p.os).1 ≠
            INVALID_HANDLE_VALUE →
          (CreateStreamOnFile K pszFilename grfMode p).2.os =
            (K.HeapAlloc (K.CreateFileW pszFilename access FILE_SHARE_READ creat p.os).2).2 ∧
          ((K.HeapAlloc (K.CreateFileW pszFilename access FILE_SHARE_READ creat p.os).2).1 = 0 →
            (CreateStreamOnFile K pszFilename grfMode p).1 = (E_OUTOFMEMORY, none) ∧
            (CreateStreamOnFile K pszFilename grfMode p).2.mem = p.mem) ∧
          ((K.HeapAlloc (K.CreateFileW pszFilename access FILE_SHARE_READ creat p.os).2).1 ≠ 0 →
            (CreateStreamOnFile K pszFilename grfMode p).1 = (S_OK, some
              (K.HeapAlloc (K.CreateFileW pszFilename access FILE_SHARE_READ creat p.os).2).1) ∧
            (CreateStreamOnFile K pszFilename grfMode p).2.mem
                (K.HeapAlloc (K.CreateFileW pszFilename access FILE_SHARE_READ creat p.os).2).1 =
              some (⟨1, (K.CreateFileW pszFilename access FILE_SHARE_READ creat p.os).1⟩ :
                ISHFileStream)))) ∧
    (¬ ((grfMode &&& 0xF = STGM_READ ∨ grfMode &&& 0xF = STGM_WRITE ∨
        grfMode &&& 0xF = STGM_READWRITE) ∧
      (grfMode &&& 0xF000 = STGM_CREATE ∨ grfMode &&& 0xF000 = STGM_FAILIFTHERE)) →
      CreateStreamOnFile K pszFilename grfMode p = ((STG_E_INVALIDFLAG, none), p)) := by
  refine ⟨?_, create_invalid K pszFilename grfMode p hflag⟩
  rintro ⟨ha, hc⟩
  obtain ⟨access, hacc⟩ : ∃ a, a = (if grfMode &&& 0xF = STGM_READ then GENERIC_READ
      else GENERIC_READ ||| GENERIC_WRITE) := ⟨_, rfl⟩
  obtain ⟨creat, hcr⟩ : ∃ c, c = (if grfMode &&& 0xF000 = STGM_CREATE then CREATE_ALWAYS
      else OPEN_EXISTING) := ⟨_, rfl⟩
  refine ⟨access, creat, hacc, hcr, ?_⟩
  rw [create_eq K pszFilename grfMode p access creat hflag ha hc hacc hcr]
  by_cases h1 : (K.CreateFileW pszFilename access FILE_SHARE_READ creat p.os).1 =
      INVALID_HANDLE_VALUE
  · rw [if_pos h1]
    exact ⟨⟨_, since_sys_sys _ _ _ _ _, Or.inl rfl⟩, fun _ => ⟨rfl, rfl, rfl⟩,
      fun hne => absurd h1 hne⟩
  · rw [if_neg h1]
    by_cases h2 : (K.HeapAlloc
        (K.CreateFileW pszFilename access FILE_SHARE_READ creat p.os).2).1 = 0
    · rw [if_pos h2]
      exact ⟨⟨_, since_sys_sys _ _ _ _ _, Or.inr rfl⟩, fun he => absurd he h1,
        fun _ => ⟨rfl, fun _ => ⟨rfl, rfl⟩, fun hne => absurd h2 hne⟩⟩
    · rw [if_neg h2]
      refine ⟨⟨_, ?_, Or.inr rfl⟩, fun he => absurd he h1,
        fun _ => ⟨rfl, fun he => absurd he h2, fun _ => ⟨rfl, ?_⟩⟩⟩
      · rw [since_store]
        exact since_sys_sys _ _ _ _ _
      · simp [Proc.store]

/-- C1 at the mode create + read-write on the concrete kernel: the open is requested with read
+ write access and create-always, the result is `S_OK`, and the table of the kernel holds the
open handle 0 on the new, empty file. -/
theorem C1_create_opens_witness :
    (0x1002 &&& STGM_TRANSACTED = 0) ∧
    (∃ access creat,
        access = (if 0x1002 &&& 0xF = STGM_READ then GENERIC_READ
          else GENERIC_READ ||| GENERIC_WRITE) ∧
        creat = (if 0x1002 &&& 0xF000 = STGM_CREATE then CREATE_ALWAYS else OPEN_EXISTING) ∧
        (∃ tail, booted.since (CreateStreamOnFile win32 pathA 0x1002 booted).2 =
            OsCall.CreateFileW pathA access FILE_SHARE_READ creat :: tail ∧
          (tail = [OsCall.GetLastError] ∨ tail = [OsCall.HeapAlloc])) ∧
        ((win32.CreateFileW pathA access FILE_SHARE_READ creat booted.os).1 =
            INVALID_HANDLE_VALUE →
          (CreateStreamOnFile win32 pathA 0x1002 booted).1 =
            (HRESULT_FROM_WIN32
              (win32.GetLastError (win32.CreateFileW pathA access FILE_SHARE_READ creat booted.os).2),
              none) ∧
          (CreateStreamOnFile win32 pathA 0x1002 booted).2.os =
            (win32.CreateFileW pathA access FILE_SHARE_READ creat booted.os).2 ∧
          (CreateStreamOnFile win32 pathA 0x1002 booted).2.mem = booted.mem) ∧
        ((win32.CreateFileW pathA access FILE_SHARE_READ creat booted.os).1 ≠
            INVALID_HANDLE_VALUE →
          (CreateStreamOnFile win32 pathA 0x1002 booted).2.os =
            (win32.HeapAlloc (win32.CreateFileW pathA access FILE_SHARE_READ creat booted.os).2).2 ∧
          ((win32.HeapAlloc (win32.CreateFileW pathA access FILE_SHARE_READ creat booted.os).2).1 = 0 →
            (CreateStreamOnFile win32 pathA 0x1002 booted).1 = (E_OUTOFMEMORY, none) ∧
            (CreateStreamOnFile win32 pathA 0x1002 booted).2.mem = booted.mem) ∧
          ((win32.HeapAlloc (win32.CreateFileW pathA access FILE_SHARE_READ creat booted.os).2).1 ≠ 0 →
            (CreateStreamOnFile win32 pathA 0x1002 booted).1 = (S_OK, some
              (win32.HeapAlloc (win32.CreateFileW pathA access FILE_SHARE_READ creat booted.os).2).1) ∧
            (CreateStreamOnFile win32 pathA 0x1002 booted).2.mem
                (win32.HeapAlloc (win32.CreateFileW pathA access FILE_SHARE_READ creat booted.os).2).1 =
              some (⟨1, (win32.CreateFileW pathA access FILE_SHARE_READ creat booted.os).1⟩ :
                ISHFileStream)))) ∧
    (CreateStreamOnFile win32 pathA 0x1002 booted).1 = (S_OK, some 65536) ∧
    (CreateStreamOnFile win32 pathA 0x1002 booted).2.os.file? 0 =
      some (⟨pathA, true, true, 1, 0, true⟩ : FileObject) ∧
    (CreateStreamOnFile win32 pathA 0x1002 booted).2.os.files pathA =
      some [] :=
  ⟨by decide,
    (C1_create_opens Win32 win32 pathA 0x1002 booted (by decide)).1
      ⟨by decide, by decide⟩, by decide, by decide, by decide⟩

/-- C2. For every path and every mode with the transacted flag set, whatever the other bits,
`CreateStreamOnFile` returns `E_INVALIDARG`, stores nothing in the output stream reference and
leaves the process state unchanged: no primitive is invoked. -/
theorem C2_transacted_rejected (σ : Type) (K : Kernel σ) (pszFilename : List Nat)
    (grfMode : Nat) (p : Proc σ) (hflag : grfMode &&& STGM_TRANSACTED ≠ 0) :
    CreateStreamOnFile K pszFilename grfMode p = ((E_INVALIDARG, none), p) := by
  unfold CreateStreamOnFile
  rw [if_pos hflag]

/-- C2 at the mode `0x1FFFF`, whose access and creation sub-fields are invalid too. -/
theorem C2_transacted_rejected_witness :
    (0x1FFFF &&& STGM_TRANSACTED ≠ 0) ∧
    CreateStreamOnFile win32 [97] 0x1FFFF (Proc.start (Win32.boot 4)) =
      ((E_INVALIDARG, none), Proc.start (Win32.boot 4)) :=
  ⟨by decide, C2_transacted_rejected Win32 win32 [97] 0x1FFFF (Proc.start (Win32.boot 4))
    (by decide)⟩

/-- C3, amended. On the concrete kernel, for a live stream whose handle was opened for
reading and writing and whose position is 0, and for every byte sequence `b` of length
below 2^32: `Write(b, N)` succeeds and reports `N`, the following `Seek` to offset 0 from the
beginning succeeds and reports position 0, and the following `Read` of `N` bytes returns
`S_OK`, the count `N` and exactly the bytes `b`. -/
theorem C3_roundtrip_at_start (iface : Nat) (p : Proc Win32) (This : ISHFileStream)
    (f : FileObject) (b : List Nat)
    (hlive : p.mem iface = some This) (hopen : p.os.file? This.handle = some f)
    (hr : f.canRead = true) (hw : f.canWrite = true) (hpos : f.pos = 0)
    (_hN : b.length < 4294967296) :
    ∃ p1 p2 p3,
      IStream_fnWrite win32 iface (some b) b.length true p = some ((S_OK, some b.length), p1) ∧
      IStream_fnSeek win32 iface 0 FILE_BEGIN p1 = some ((S_OK, some 0), p2) ∧
      IStream_fnRead win32 iface true b.length true p2 = some ((S_OK, b, some b.length), p3) := by
  obtain ⟨p1, f1, h1, hm1, ho1, hr1, hd1⟩ := write_at_start b hlive hopen hw hpos
  obtain ⟨p2, h2, hm2, ho2, hd2⟩ := seek_begin (hm1 ▸ hlive) ho1
  obtain ⟨p3, h3⟩ := read_here b.length (hm2 ▸ hm1 ▸ hlive) ho2 (hr1 ▸ hr)
  refine ⟨p1, p2, p3, h1, h2, ?_⟩
  rw [h3, hd2, hd1]
  simp

/-- C3 at the scenario of the specification: the bytes 1, 2, 3, 4 on the stream over a
fresh create-always file. -/
theorem C3_roundtrip_at_start_witness :
    fresh.mem 65536 = some { ref := 1, handle := 0 } ∧
    fresh.os.file? 0 = some (⟨pathA, true, true, 1, 0, true⟩ : FileObject) ∧
    ([1, 2, 3, 4] : List Nat).length < 4294967296 ∧
    ∃ p1 p2 p3,
      IStream_fnWrite win32 65536 (some [1, 2, 3, 4]) 4 true fresh =
        some ((S_OK, some 4), p1) ∧
      IStream_fnSeek win32 65536 0 FILE_BEGIN p1 = some ((S_OK, some 0), p2) ∧
      IStream_fnRead win32 65536 true 4 true p2 = some ((S_OK, [1, 2, 3, 4], some 4), p3) :=
  ⟨rfl, rfl, by decide,
    C3_roundtrip_at_start 65536 fresh { ref := 1, handle := 0 }
      ⟨pathA, true, true, 1, 0, true⟩ [1, 2, 3, 4] rfl rfl rfl rfl rfl (by decide)⟩

/-- C3 as stated fails. The stream `written` is open for reading and writing at position
4 of a file holding 1, 2, 3, 4. Writing 5, 6, 7, 8 succeeds, the seek to the beginning
succeeds, and the read of 4 bytes returns `S_OK` with count 4 and the bytes 1, 2, 3, 4, which
are not the bytes written. -/
theorem C3_counterexample :
    written.mem 65536 = some { ref := 1, handle := 0 } ∧
    (written.os.file? 0).map (fun f => (f.canRead, f.canWrite, f.pos, written.os.data f)) =
      some (true, true, 4, [1, 2, 3, 4]) ∧
    ((IStream_fnWrite win32 65536 (some [5, 6, 7, 8]) 4 true written).bind fun w =>
      (IStream_fnSeek win32 65536 0 FILE_BEGIN w.2).bind fun s =>
        (IStream_fnRead win32 65536 true 4 true s.2).map fun r => (w.1, s.1, r.1)) =
      some ((S_OK, some 4), (S_OK, some 0), (S_OK, [1, 2, 3, 4], some 4)) ∧
    ([1, 2, 3, 4] : List Nat) ≠ [5, 6, 7, 8] := by
  decide

/-- C4 fails on the code. On the writable stream `written` (position 4, size 4):
`SetSize(0)` returns `E_FAIL` after the positioning primitive alone, because the position 0
it returns is read as a failure; and `SetSize(2^31)` returns `S_OK` while the following
`Seek` to offset 0 from the end reports 4, not 2^31. -/
theorem C4_setsize_zero_fails :
    (written.os.file? 0).map (fun f => (f.canWrite, f.pos)) = some (true, 4) ∧
    (IStream_fnSetSize win32 65536 0 written).map (fun r => (r.1, written.since r.2)) =
      some (E_FAIL, [OsCall.SetFilePointer 0 0 none FILE_BEGIN]) ∧
    ((IStream_fnSetSize win32 65536 2147483648 written).bind fun r =>
      (IStream_fnSeek win32 65536 0 FILE_END r.2).map fun s => (r.1, s.1)) =
      some (S_OK, (S_OK, some 4)) := by
  decide

/-- C5 fails on the code. On the stream `written` (position 4, size 4), `Seek` with
offset -1 from the current position, and from the end, returns `S_OK` and reports
4294967299 = 4 + (2^32 - 1), which is also the new position of the handle: the primitive is
given the low part 0xFFFFFFFF with a high part of 0, a forward distance. Standard seek
semantics gives position 3. -/
theorem C5_seek_negative_offset :
    (written.os.file? 0).map (fun f => (f.pos, (written.os.data f).length)) = some (4, 4) ∧
    (IStream_fnSeek win32 65536 (-1) FILE_CURRENT written).map
        (fun r => (r.1, (r.2.os.file? 0).map (fun f => f.pos))) =
      some ((S_OK, some 4294967299), some 4294967299) ∧
    (IStream_fnSeek win32 65536 (-1) FILE_END written).map
        (fun r => (r.1, (r.2.os.file? 0).map (fun f => f.pos))) =
      some ((S_OK, some 4294967299), some 4294967299) ∧
    (IStream_fnSeek win32 65536 (-1) FILE_CURRENT written).map
        (fun r => written.since r.2) =
      some [OsCall.SetFilePointer 0 4294967295 (some 0) FILE_CURRENT] := by
  decide

/-- C6 fails on the code. On the stream `written`: for the size 2^31 the positioning
primitive fails (it returns the sentinel, with `ERROR_NEGATIVE_SEEK`), yet `SetSize` goes on
to truncate and returns `S_OK`; for the size 0 the positioning primitive succeeds (it returns
the valid position 0 and the handle is at 0), yet `SetSize` returns `E_FAIL`. -/
theorem C6_setsize_misjudges_positioning :
    (Win32.SetFilePointer 0 2147483648 none FILE_BEGIN written.os).1.1 =
      INVALID_SET_FILE_POINTER ∧
    (Win32.SetFilePointer 0 2147483648 none FILE_BEGIN written.os).2.lastError =
      ERROR_NEGATIVE_SEEK ∧
    (IStream_fnSetSize win32 65536 2147483648 written).map (fun r => (r.1, written.since r.2)) =
      some (S_OK, [OsCall.SetFilePointer 0 2147483648 none FILE_BEGIN, OsCall.SetEndOfFile 0]) ∧
    (Win32.SetFilePointer 0 0 none FILE_BEGIN written.os).1.1 = 0 ∧
    ((Win32.SetFilePointer 0 0 none FILE_BEGIN written.os).2.file? 0).map (fun f => f.pos) =
      some 0 ∧
    (IStream_fnSetSize win32 65536 0 written).map (fun r => (r.1, written.since r.2)) =
      some (E_FAIL, [OsCall.SetFilePointer 0 0 none FILE_BEGIN]) := by
  decide

/-- C7, amended. A stream just created by `CreateStreamOnFile` is the triple (1, open, 0), its
handle is the one the open primitive returned. For every sequence of lifetime calls in which
every call is made while the count is at least 1 (no proper initial segment has as many
releases as 1 plus its increments) and the count never reaches 2^32: the sequence runs to the
end; a retain and a release each return the new count, a query for the base or stream
identifier returns `S_OK` with the object; the triple at the end is
(c, c >= 1, 1 if c = 0 else 0) for c = 1 + increments - releases, so the handle is open
exactly when the count is at least 1 and is closed at most once, exactly once when the
sequence is balanced. While c >= 1 no primitive has been invoked and the system is in the
state creation left; when c = 0 the last call is a release, which invoked `CloseHandle` on
the handle of the stream and then `HeapFree`, and the system is in the state these two
primitives leave. Every initial segment of such a sequence is such a sequence, so this holds
at every point of the run. -/
theorem C7_lifetime (σ : Type) (K : Kernel σ) (pszFilename : List Nat) (grfMode iface : Nat)
    (p0 p : Proc σ) (ops : List Op)
    (hcreate : CreateStreamOnFile K pszFilename grfMode p0 = ((S_OK, some iface), p))
    (hlive : ∀ k, k < ops.length → rels (ops.take k) < 1 + incs (ops.take k))
    (hcount : ∀ k, k ≤ ops.length →
      1 + incs (ops.take k) < 4294967296 + rels (ops.take k)) :
    ∃ access creat hd rets q,
      access = (if grfMode &&& 0xF = STGM_READ then GENERIC_READ
        else GENERIC_READ ||| GENERIC_WRITE) ∧
      creat = (if grfMode &&& 0xF000 = STGM_CREATE then CREATE_ALWAYS else OPEN_EXISTING) ∧
      hd = (K.CreateFileW pszFilename access FILE_SHARE_READ creat p0.os).1 ∧
      hd ≠ INVALID_HANDLE_VALUE ∧
      p.os = (K.HeapAlloc (K.CreateFileW pszFilename access FILE_SHARE_READ creat p0.os).2).2 ∧
      view p p iface = { refCount := 1, handleOpen := true, closeCount := 0 } ∧
      p.mem iface = some { ref := 1, handle := hd } ∧
      run K iface ops p = some (rets, q) ∧
      rets.length = ops.length ∧
      (∀ k, k < ops.length → rets[k]? = expect iface ops k) ∧
      rels ops ≤ 1 + incs ops ∧
      view p q iface =
        { refCount := 1 + incs ops - rels ops
          handleOpen := decide (1 ≤ 1 + incs ops - rels ops)
          closeCount := if rels ops = 1 + incs ops then 1 else 0 } ∧
      (rels ops < 1 + incs ops → p.since q = [] ∧ q.os = p.os) ∧
      (rels ops = 1 + incs ops →
        (∃ pre, ops = pre ++ [Op.Release]) ∧ q.mem iface = none ∧
        p.since q = [OsCall.CloseHandle hd, OsCall.HeapFree iface] ∧
        q.os = K.HeapFree iface (K.CloseHandle hd p.os).2) := by
  obtain ⟨access, creat, hacc, hcr, hvalid, -, hi, hm, hos, -⟩ := create_success hcreate
  obtain ⟨rets, q, hrun, hl, hret, hle, hA, hB⟩ := run_live K hi hm ops hlive hcount
  refine ⟨access, creat, _, rets, q, hacc, hcr, rfl, hvalid, hos, ?_, hm, hrun, hl, hret, hle,
    ?_, ?_, ?_⟩
  · rw [view_of_calls hm (List.append_nil _).symm]
    simp [hm]
  · rcases Nat.lt_or_eq_of_le hle with hlt | heq
    · obtain ⟨hq, hc, -⟩ := hA hlt
      rw [view_of_calls hm (hc.trans (List.append_nil _).symm), hq]
      have h1 : 1 ≤ 1 + incs ops - rels ops := by omega
      have h2 : rels ops ≠ 1 + incs ops := by omega
      simp [h1, h2]
    · obtain ⟨hq, hc, -, -⟩ := hB heq
      rw [view_of_calls hm hc, hq]
      simp [heq]
  · intro hlt
    exact ⟨by simp [Proc.since, (hA hlt).2.1], (hA hlt).2.2⟩
  · intro heq
    obtain ⟨hq, hc, hos', hpre⟩ := hB heq
    exact ⟨hpre, hq, by simp [Proc.since, hc], hos'⟩

/-- C7 at a retain, a stream query and three releases on the concrete fresh stream: the calls
return 2, `S_OK`, 2, 1, 0, the handle is open in the table of the kernel before the run and
closed after it, and it was closed once. -/
theorem C7_lifetime_witness :
    CreateStreamOnFile win32 pathA 0x1002 booted = ((S_OK, some 65536), fresh) ∧
    (∀ k, k < lifeSeq.length → rels (lifeSeq.take k) < 1 + incs (lifeSeq.take k)) ∧
    (∀ k, k ≤ lifeSeq.length →
      1 + incs (lifeSeq.take k) < 4294967296 + rels (lifeSeq.take k)) ∧
    ∃ rets q, run win32 65536 lifeSeq fresh = some (rets, q) ∧
      rets = [Ret.count 2, Ret.status S_OK 65536, Ret.count 2, Ret.count 1, Ret.count 0] ∧
      (∀ k, k < lifeSeq.length → rets[k]? = expect 65536 lifeSeq k) ∧
      view fresh q 65536 = { refCount := 0, handleOpen := false, closeCount := 1 } ∧
      fresh.since q = [OsCall.CloseHandle 0, OsCall.HeapFree 65536] ∧
      q.mem 65536 = none ∧
      q.os = win32.HeapFree 65536 (win32.CloseHandle 0 fresh.os).2 ∧
      (fresh.os.file? 0).isSome = true ∧
      q.os.file? 0 = none := by
  refine ⟨rfl, by decide, by decide, ?_⟩
  obtain ⟨access, creat, hd, rets, q, -, -, -, -, -, -, hm, hrun, -, hret, -, hview, -, hB⟩ :=
    C7_lifetime Win32 win32 pathA 0x1002 65536 booted fresh lifeSeq rfl (by decide) (by decide)
  have hd0 : hd = 0 := by
    have h : some ({ ref := 1, handle := hd } : ISHFileStream) = some { ref := 1, handle := 0 } :=
      hm.symm.trans rfl
    simpa using h
  subst hd0
  obtain ⟨-, hq, hsince, hos⟩ := hB (by decide)
  have hr : (run win32 65536 lifeSeq fresh).map (fun r => r.1) =
      some [Ret.count 2, Ret.status S_OK 65536, Ret.count 2, Ret.count 1, Ret.count 0] := by
    decide
  rw [hrun] at hr
  refine ⟨rets, q, hrun, by simpa using hr, hret, hview, hsince, hq, hos, by decide, ?_⟩
  rw [hos]
  decide

/-- C7 as stated fails, in two ways. The sequence release, retain, release has no initial
segment with more releases than 1 plus its increments; on the fresh stream the first release
returns 0, closes the handle (it is closed in the table of the kernel) and frees the object,
so the retain that follows is a call through a pointer to freed memory and the run has no
defined result. And the sequence of 2^32 - 1 retains has no release at all; it runs to the
end, the last retain returns 0 and leaves the 32-bit count at 0, while no primitive was
invoked and the system is untouched: the count is 0 and the handle is open. -/
theorem C7_counterexample :
    CreateStreamOnFile win32 pathA 0x1002 booted = ((S_OK, some 65536), fresh) ∧
    (∀ k, k ≤ 3 → rels ([Op.Release, Op.Retain, Op.Release].take k) ≤
      1 + incs ([Op.Release, Op.Retain, Op.Release].take k)) ∧
    (run win32 65536 [Op.Release] fresh).map
        (fun r => (r.1, view fresh r.2 65536, r.2.mem 65536, r.2.os.file? 0)) =
      some ([Ret.count 0], { refCount := 0, handleOpen := false, closeCount := 1 }, none,
        none) ∧
    (run win32 65536 [Op.Release, Op.Retain] fresh).isNone = true ∧
    (run win32 65536 [Op.Release, Op.Retain, Op.Release] fresh).isNone = true ∧
    (∀ k, k ≤ 4294967295 → rels ((List.replicate 4294967295 Op.Retain).take k) ≤
      1 + incs ((List.replicate 4294967295 Op.Retain).take k)) ∧
    (∃ rets q, run win32 65536 (List.replicate 4294967295 Op.Retain) fresh = some (rets, q) ∧
      rets.getLast? = some (Ret.count 0) ∧
      q.mem 65536 = some { ref := 0, handle := 0 } ∧
      view fresh q 65536 = { refCount := 0, handleOpen := true, closeCount := 0 } ∧
      fresh.since q = [] ∧ q.os = fresh.os ∧ (q.os.file? 0).isSome = true) := by
  refine ⟨rfl, by decide, by decide, by decide, by decide, ?_, ?_⟩
  · intro k _
    rw [rels_take_retains]
    exact Nat.zero_le _
  · have hm : fresh.mem 65536 = some { ref := 1, handle := 0 } := rfl
    obtain ⟨rets, q, hrun, hq, hcalls, hos, hlast⟩ :=
      run_retains win32 4294967295 hm (by decide)
    have hz : (1 + 4294967295) % 4294967296 = 0 := by decide
    rw [hz] at hq hlast
    refine ⟨rets, q, hrun, hlast (by decide), hq, ?_, by simp [Proc.since, hcalls], hos, ?_⟩
    · rw [view_of_calls hm (hcalls.trans (List.append_nil _).symm), hq]
      simp
    · rw [hos]
      decide

/-- C8, amended. On a live stream at a non-null address: a query for `IID_IUnknown` or
`IID_IStream` returns `S_OK`, leaves the address of this same object in the output and
increments the 32-bit count of the object: the count becomes `ref + 1` modulo 2^32, that is
exactly `ref + 1` whenever `ref` is below the 32-bit maximum; no other object, nor the
system, nor the log is touched. A query for any other identifier returns `E_NOINTERFACE`,
leaves `NULL` in the output and changes nothing. -/
theorem C8_query (σ : Type) (iface : Nat) (riid : GUID) (p : Proc σ) (This : ISHFileStream)
    (hptr : iface ≠ 0) (hlive : p.mem iface = some This) :
    (riid = IID_IUnknown ∨ riid = IID_IStream →
      ∃ q, IStream_fnQueryInterface iface riid p = some ((S_OK, iface), q) ∧
        q.mem iface = some { ref := (This.ref + 1) % 4294967296, handle := This.handle } ∧
        (This.ref + 1 < 4294967296 →
          q.mem iface = some { ref := This.ref + 1, handle := This.handle }) ∧
        (∀ a, a ≠ iface → q.mem a = p.mem a) ∧ q.os = p.os ∧ q.calls = p.calls) ∧
    (¬ (riid = IID_IUnknown ∨ riid = IID_IStream) →
      IStream_fnQueryInterface iface riid p = some ((E_NOINTERFACE, 0), p)) := by
  constructor
  · intro h
    have hm : (IsEqualIID riid IID_IUnknown || IsEqualIID riid IID_IStream) = true := by
      simpa [IsEqualIID] using h
    refine ⟨p.store iface (some { This with ref := InterlockedIncrement This.ref }), ?_, ?_, ?_,
      ?_, rfl, rfl⟩
    · simp [IStream_fnQueryInterface, hm, hptr, IStream_fnAddRef, hlive]
    · simp [Proc.store, InterlockedIncrement]
    · intro hlt
      simp [Proc.store, InterlockedIncrement, Nat.mod_eq_of_lt hlt]
    · intro a ha
      simp [Proc.store, ha]
  · intro h
    have hm : (IsEqualIID riid IID_IUnknown || IsEqualIID riid IID_IStream) = false := by
      simpa [IsEqualIID] using h
    simp [IStream_fnQueryInterface, hm]

/-- C8 at a stream query and at a query for a foreign identifier on the fresh stream. -/
theorem C8_query_witness :
    (65536 ≠ 0) ∧ fresh.mem 65536 = some { ref := 1, handle := 0 } ∧
    (∃ q, IStream_fnQueryInterface 65536 IID_IStream fresh = some ((S_OK, 65536), q) ∧
        q.mem 65536 = some { ref := (1 + 1) % 4294967296, handle := 0 } ∧
        (1 + 1 < 4294967296 → q.mem 65536 = some { ref := 1 + 1, handle := 0 }) ∧
        (∀ a, a ≠ 65536 → q.mem a = fresh.mem a) ∧ q.os = fresh.os ∧ q.calls = fresh.calls) ∧
    IStream_fnQueryInterface 65536 ⟨1, 2, 3, [4, 5, 6, 7, 8, 9, 10, 11]⟩ fresh = some ((E_NOINTERFACE, 0), fresh) :=
  ⟨by decide, rfl,
    (C8_query Win32 65536 IID_IStream fresh { ref := 1, handle := 0 } (by decide) rfl).1
      (Or.inr rfl),
    (C8_query Win32 65536 ⟨1, 2, 3, [4, 5, 6, 7, 8, 9, 10, 11]⟩ fresh { ref := 1, handle := 0 } (by decide) rfl).2
      (by decide)⟩

/-- C8 as stated fails at the 32-bit maximum. After 2^32 - 2 retains the fresh stream holds
the count 4294967295; a query for the stream identifier then returns `S_OK` with the object
and leaves the count at 0, not at 4294967296. -/
theorem C8_counterexample :
    ∃ rets q q',
      run win32 65536 (List.replicate 4294967294 Op.Retain) fresh = some (rets, q) ∧
      q.mem 65536 = some { ref := 4294967295, handle := 0 } ∧
      IStream_fnQueryInterface 65536 IID_IStream q = some ((S_OK, 65536), q') ∧
      q'.mem 65536 = some { ref := 0, handle := 0 } ∧
      (4294967295 + 1 : Nat) ≠ 0 := by
  have hm : fresh.mem 65536 = some { ref := 1, handle := 0 } := rfl
  obtain ⟨rets, q, hrun, hq, -, -, -⟩ := run_retains win32 4294967294 hm (by decide)
  have hz : (1 + 4294967294) % 4294967296 = 4294967295 := by decide
  rw [hz] at hq
  refine ⟨rets, q, _, hrun, hq, query_hit_mod (by decide) hq (Or.inr rfl), ?_, by decide⟩
  simp [Proc.store]

/-- C9. `CopyTo`, `Commit`, `Revert`, `LockRegion`, `UnlockRegion`, `Stat` and `Clone`
return `E_NOTIMPL` for every process state and every argument (null pointers and zero sizes
included), store nothing in their output parameters and leave the process state unchanged:
no primitive invoked, no object, handle or position touched. -/
theorem C9_unsupported (σ : Type) (p : Proc σ)
    (iface pstm cb grfCommitFlags libOffset dwLockType pstatstg grfStatFlag ppstm : Nat) :
    IStream_fnCopyTo iface pstm cb p = ((E_NOTIMPL, none, none), p) ∧
    IStream_fnCommit iface grfCommitFlags p = (E_NOTIMPL, p) ∧
    IStream_fnRevert iface p = (E_NOTIMPL, p) ∧
    IStream_fnLockRegion iface libOffset cb dwLockType p = (E_NOTIMPL, p) ∧
    IStream_fnUnlockRegion iface libOffset cb dwLockType p = (E_NOTIMPL, p) ∧
    IStream_fnStat iface pstatstg grfStatFlag p = ((E_NOTIMPL, none), p) ∧
    IStream_fnClone iface ppstm p = ((E_NOTIMPL, none), p) :=
  ⟨rfl, rfl, rfl, rfl, rfl, rfl, rfl⟩

/-- C10. A `Read` without destination buffer returns `STG_E_INVALIDPOINTER` and changes
nothing (the read primitive is not invoked). A `Read` with a buffer on a live stream invokes
the read primitive exactly once, on the handle of the stream and with the requested count,
and nothing else; its status is `S_FALSE` when the primitive reports failure and `S_OK` when
it reports success, in both cases a non-negative code. -/
theorem C10_read_status (σ : Type) (K : Kernel σ) (iface cb : Nat) (pcbRead : Bool)
    (p : Proc σ) (This : ISHFileStream) (hlive : p.mem iface = some This) :
    IStream_fnRead K iface false cb pcbRead p = some ((STG_E_INVALIDPOINTER, [], none), p) ∧
    ∃ status q,
      IStream_fnRead K iface true cb pcbRead p =
        some ((status, (K.ReadFile This.handle cb p.os).1.2,
          if pcbRead then some (K.ReadFile This.handle cb p.os).1.2.length else none), q) ∧
      p.since q = [OsCall.ReadFile This.handle cb] ∧
      q.os = (K.ReadFile This.handle cb p.os).2 ∧
      q.mem = p.mem ∧
      ((K.ReadFile This.handle cb p.os).1.1 = false → status = S_FALSE) ∧
      ((K.ReadFile This.handle cb p.os).1.1 = true → status = S_OK) ∧
      0 ≤ status := by
  refine ⟨rfl, ?_⟩
  unfold IStream_fnRead
  simp only [hlive, Bool.not_true, Bool.false_eq_true, if_false]
  cases hok : (K.ReadFile This.handle cb p.os).1.1
  · exact ⟨S_FALSE, _, by simp, since_sys _ _ _, rfl, rfl, by simp, by simp, by decide⟩
  · exact ⟨S_OK, _, by simp, since_sys _ _ _, rfl, rfl, by simp, by simp, by decide⟩

/-- C10 at a read of 4 bytes on the stream `written`: on the concrete kernel, without and with
a buffer, and on a kernel whose read primitive fails, where the status is `S_FALSE`. -/
theorem C10_read_status_witness :
    written.mem 65536 = some { ref := 1, handle := 0 } ∧
    IStream_fnRead win32 65536 false 4 true written =
      some ((STG_E_INVALIDPOINTER, [], none), written) ∧
    (∃ q, IStream_fnRead win32 65536 true 4 true written = some ((S_OK, [], some 0), q) ∧
      written.since q = [OsCall.ReadFile 0 4]) ∧
    (∃ q, IStream_fnRead faulty 65536 true 4 true written = some ((S_FALSE, [], some 0), q) ∧
      written.since q = [OsCall.ReadFile 0 4]) := by
  refine ⟨rfl, (C10_read_status Win32 win32 65536 4 true written ⟨1, 0⟩ rfl).1, ?_, ?_⟩
  · obtain ⟨status, q, h, hs, -, -, -, hok, -⟩ :=
      (C10_read_status Win32 win32 65536 4 true written ⟨1, 0⟩ rfl).2
    rw [hok rfl] at h
    exact ⟨q, h, hs⟩
  · obtain ⟨status, q, h, hs, -, -, hfail, -, -⟩ :=
      (C10_read_status Win32 faulty 65536 4 true written ⟨1, 0⟩ rfl).2
    rw [hfail rfl] at h
    exact ⟨q, h, hs⟩

end SHFileStream
